import Mathlib

/-!
The library ut (experimental/main.cpp): expression model, evaluator, printer, `expect`

A shallow embedding of `src/experimental/main.cpp`.

Conventions of the embedding.

* The program is a C++20 template library.  Its operand types range over a
  fixed universe here: `bool`, the integer types of GCC on an LP64 target
  (the source refuses every compiler but GCC), `std::string_view`, the typed
  constants `detail::arithmetic_constant<T>` of the integer types, and one
  client class `tribool` whose `operator==` does not return `bool`.
  Floating point operands are left out.
* The expression classes `value<T>`, `expected<T>`, `equal<A, B>` become the
  constructors of `Expr`; what C++ settles per type (`is_expected_only`, the
  `if constexpr` branches) becomes a function of the tree.
* `std::ostream` is a record of the characters written and of the
  `fmtflags` word; printing is explicit state passing.  Numbers are inserted
  in the default numeric format (decimal, no `showpos`, field width 0).
* A failure of the build (a `static_assert`, a call that is not a constant
  expression inside `consteval`) is a `none` or an `Except.error`.
-/

namespace ut

/-! ## Integer types and conversions -/

/-- The integer types the literal operators name.  The fixed-width aliases
`std::int8_t` ... `std::uint64_t` are `schar, short, int, long` and
`uchar, ushort, uint, ulong` on this target. -/
inductive IntTy
  | char | schar | uchar | short | ushort | int | uint | long | ulong | llong | ullong
  deriving DecidableEq

namespace IntTy

/-- Width in bits (LP64). -/
def bits : IntTy → Nat
  | char | schar | uchar => 8
  | short | ushort => 16
  | int | uint => 32
  | long | ulong | llong | ullong => 64

/-- Result of `std::is_signed_v` (plain `char` is signed with GCC on x86-64). -/
def is_signed : IntTy → Bool
  | char | schar | short | int | long | llong => true
  | uchar | ushort | uint | ulong | ullong => false

/-- Integer conversion rank. -/
def rank : IntTy → Nat
  | char | schar | uchar => 1
  | short | ushort => 2
  | int | uint => 3
  | long | ulong => 4
  | llong | ullong => 5

/-- The unsigned type of the same rank. -/
def to_unsigned : IntTy → IntTy
  | char | schar | uchar => uchar
  | short | ushort => ushort
  | int | uint => uint
  | long | ulong => ulong
  | llong | ullong => ullong

/-- Value of `std::numeric_limits<T>::max()`. -/
def numeric_limits_max (T : IntTy) : Nat :=
  if T.is_signed then 2 ^ (T.bits - 1) - 1 else 2 ^ T.bits - 1

/-- Value of `std::numeric_limits<T>::min()`. -/
def numeric_limits_min (T : IntTy) : Int :=
  if T.is_signed then -(2 ^ (T.bits - 1) : Int) else 0

/-- Integral promotion: the types below `int` promote to `int`. -/
def promote (T : IntTy) : IntTy :=
  if T.rank < IntTy.int.rank then IntTy.int else T

/-- Usual arithmetic conversions: the common type of two promoted operands. -/
def common (S T : IntTy) : IntTy :=
  let S := S.promote
  let T := T.promote
  if S = T then S
  else if S.is_signed = T.is_signed then (if S.rank < T.rank then T else S)
  else
    let u := if S.is_signed then T else S
    let s := if S.is_signed then S else T
    if s.rank ≤ u.rank then u
    else if u.bits < s.bits then s
    else s.to_unsigned

end IntTy

/-- Conversion of an integer value to the integer type `T`
(`static_cast<T>`): reduction modulo `2 ^ bits`, read in two's complement
when `T` is signed. -/
def static_cast (T : IntTy) (n : Int) : Int :=
  let m := n % (2 ^ T.bits : Int)
  if T.is_signed && decide ((2 ^ (T.bits - 1) : Int) ≤ m) then m - (2 ^ T.bits : Int) else m

/-- `detail::validating_cast<T>(v)`: `none` stands for the call of the
non-constexpr constructor of `value_is_greater_then_types_max`, which makes
the `consteval` call fail to build. -/
def validating_cast (T : IntTy) (v : Nat) : Option Int :=
  if v > T.numeric_limits_max then none
  else some (static_cast T (v : Int))

/-! ## Typed constants -/

/-- An object of `detail::arithmetic_constant<T>`: the declared type and the
stored `value_`. -/
structure arithmetic_constant where
  T : IntTy
  value_ : Int
  deriving DecidableEq

namespace arithmetic_constant

/-- `arithmetic_constant::operator+()`: `+value_` is computed in the promoted
type and brace-initialises a constant of type `T`. -/
def operator_plus (c : arithmetic_constant) : arithmetic_constant :=
  ⟨c.T, static_cast c.T (static_cast c.T.promote c.value_)⟩

/-- `arithmetic_constant::operator-()`: `-value_` is computed in the promoted
type and brace-initialises a constant of type `T`.  Where the negation
overflows a signed type, which C++ leaves undefined, the model wraps. -/
def operator_minus (c : arithmetic_constant) : arithmetic_constant :=
  ⟨c.T, static_cast c.T (static_cast c.T.promote (-c.value_))⟩

end arithmetic_constant

/-- The literal operators with a range check, `operator""_i`, `_s`, `_c`,
`_sc`, `_l`, `_ll`, `_u`, `_uc`, `_us`, `_ul`, `_i8` ... `_u64`:
`arithmetic_constant{validating_cast<T>(v)}`. -/
def literal (T : IntTy) (v : Nat) : Option arithmetic_constant :=
  (validating_cast T v).map (fun n => ⟨T, n⟩)

/-- `operator""_i`. -/
def literal_i (v : Nat) : Option arithmetic_constant := literal IntTy.int v

/-- `operator""_i8` (`std::int8_t` is `signed char`). -/
def literal_i8 (v : Nat) : Option arithmetic_constant := literal IntTy.schar v

/-- `operator""_u64` (`std::uint64_t` is `unsigned long`). -/
def literal_u64 (v : Nat) : Option arithmetic_constant := literal IntTy.ulong v

/-- `operator""_ull`: `arithmetic_constant{v}`, no cast. -/
def literal_ull (v : Nat) : Option arithmetic_constant := some ⟨IntTy.ullong, (v : Int)⟩

/-! ## Operand values -/

/-- The three states of `tribool`, a class of the client in the manner of
Boost.Tribool: it compares with a `tribool` and with a `bool`, and each
comparison returns a `tribool`.  It stands for the operand types whose
`operator==` does not return `bool`. -/
inductive tribool
  | false_value | true_value | indeterminate_value
  deriving DecidableEq

/-- The conversion `tribool(bool)`. -/
def tribool.of_bool (b : Bool) : tribool :=
  if b then tribool.true_value else tribool.false_value

/-- The comparison `tribool operator==(tribool, tribool)`: indeterminate when
an operand is, else whether the operands agree.  The comparisons with a
`bool` convert the `bool` and call this one. -/
def tribool.operator_eq : tribool → tribool → tribool
  | indeterminate_value, _ => indeterminate_value
  | _, indeterminate_value => indeterminate_value
  | false_value, false_value => true_value
  | true_value, true_value => true_value
  | _, _ => false_value

/-- The operand types `T` of the universe. -/
inductive Ty
  | bool
  | int (T : IntTy)
  | string_view
  | constant (T : IntTy)
  | tribool
  deriving DecidableEq

/-- An operand value together with its static type. -/
inductive Val
  | bool (b : Bool)
  | int (T : IntTy) (n : Int)
  | string_view (s : String)
  | constant (c : arithmetic_constant)
  | tribool (t : ut.tribool)
  deriving DecidableEq

namespace Val

/-- The static type of a value. -/
def type : Val → Ty
  | bool _ => Ty.bool
  | int T _ => Ty.int T
  | string_view _ => Ty.string_view
  | constant c => Ty.constant c.T
  | tribool _ => Ty.tribool

/-- Whether the value lies in the range of its type. -/
def in_range : Val → Bool
  | int T n => decide (T.numeric_limits_min ≤ n) && decide (n ≤ (T.numeric_limits_max : Int))
  | constant c =>
    decide (c.T.numeric_limits_min ≤ c.value_) && decide (c.value_ ≤ (c.T.numeric_limits_max : Int))
  | _ => true

/-- Concept `concepts::constant<T>`: derived from `detail::constant_tag`. -/
def is_constant : Val → Bool
  | constant _ => true
  | _ => false

/-- Member `value_` of a constant, read through `constant::operator()`; any
other value is itself. -/
def unwrap : Val → Val
  | constant c => int c.T c.value_
  | v => v

end Val

/-- Built-in `==` of two integers of types `S` and `T`: both are converted to
the common type and compared. -/
def int_eq (S : IntTy) (a : Int) (T : IntTy) (b : Int) : Bool :=
  decide (static_cast (IntTy.common S T) a = static_cast (IntTy.common S T) b)

/-- The value of `a == b` for operands that are not constants.  Where C++ has
no such comparison the program does not build: `eq_type` is `none` there, the
tree is outside `Expr.well_formed`, and the `bool false` given here stands
for no run of the program. -/
def builtin_eq : Val → Val → Val
  | Val.bool a, Val.bool b => Val.bool (a == b)
  | Val.bool a, Val.int T n => Val.bool (int_eq IntTy.int (if a then 1 else 0) T n)
  | Val.int S n, Val.bool b => Val.bool (int_eq S n IntTy.int (if b then 1 else 0))
  | Val.int S a, Val.int T b => Val.bool (int_eq S a T b)
  | Val.string_view a, Val.string_view b => Val.bool (a == b)
  | Val.tribool a, Val.tribool b => Val.tribool (tribool.operator_eq a b)
  | Val.tribool a, Val.bool b => Val.tribool (tribool.operator_eq a (tribool.of_bool b))
  | Val.bool a, Val.tribool b => Val.tribool (tribool.operator_eq (tribool.of_bool a) b)
  | _, _ => Val.bool false

/-- The value of `a == b`.  A constant operand goes through
`constant::operator==(auto const& other)`, which returns `value_ == other`
(taken with the operands reversed when the constant stands on the right), so
constants compare by their stored values. -/
def operator_eq (a b : Val) : Val := builtin_eq a.unwrap b.unwrap

/-- The type of `value_`. -/
def Ty.unwrap : Ty → Ty
  | Ty.constant T => Ty.int T
  | t => t

/-- The type of `a == b`, `none` when the comparison is ill-formed. -/
def eq_type (a b : Ty) : Option Ty :=
  match a.unwrap, b.unwrap with
  | Ty.bool, Ty.bool => some Ty.bool
  | Ty.bool, Ty.int _ => some Ty.bool
  | Ty.int _, Ty.bool => some Ty.bool
  | Ty.int _, Ty.int _ => some Ty.bool
  | Ty.string_view, Ty.string_view => some Ty.bool
  | Ty.tribool, Ty.tribool => some Ty.tribool
  | Ty.tribool, Ty.bool => some Ty.tribool
  | Ty.bool, Ty.tribool => some Ty.tribool
  | _, _ => none

/-! ## Expression nodes -/

/-- An expression node: `value<T>`, `expected<T>` (each holding `value_`) and
`equal<A, B>` (holding `a_` and `b_`). -/
inductive Expr
  | value (value_ : Val)
  | expected (value_ : Val)
  | equal (a_ b_ : Expr)
  deriving DecidableEq

/-- What may be passed to the constructor of `equal`: an object that is not
an expression (a typed constant or any other value), or an expression. -/
inductive Operand
  | non_expression (v : Val)
  | expression (e : Expr)

/-- `detail::to_expression`. -/
def to_expression : Operand → Expr
  | Operand.non_expression v => if v.is_constant then Expr.expected v else Expr.value v
  | Operand.expression e => e

/-- The constructor `equal::equal(auto const& a, auto const& b)`. -/
def equal (a b : Operand) : Expr :=
  Expr.equal (to_expression a) (to_expression b)

namespace Expr

/-- `operator()`: the wrapped value of a leaf, `a_() == b_()` of an `equal`. -/
def evaluate : Expr → Val
  | value v => v
  | expected v => v
  | equal a b => operator_eq a.evaluate b.evaluate

/-- The type `decltype((*this)())` without reference and cv-qualifiers,
`none` when a comparison in the tree is ill-formed. -/
def type : Expr → Option Ty
  | value v => some v.type
  | expected v => some v.type
  | equal a b =>
    match a.type, b.type with
    | some s, some t => eq_type s t
    | _, _ => none

/-- Whether every leaf holds a value in the range of its type. -/
def leaves_in_range : Expr → Bool
  | value v => v.in_range
  | expected v => v.in_range
  | equal a b => a.leaves_in_range && b.leaves_in_range

/-- The trees that stand for a program that builds: every comparison is
well-formed, every leaf is a value of its type. -/
def well_formed (e : Expr) : Bool := e.type.isSome && e.leaves_in_range

/-- `is_expected_only()`. -/
def is_expected_only : Expr → Bool
  | value _ => false
  | expected _ => true
  | equal a b => a.is_expected_only && b.is_expected_only

/-- The lambda in `equal::all_conditions_true`: the result of `(*this)()` when
its type is `bool`, else `true`.  The value of a well-formed node is a
`Val.bool` exactly when its static type is `bool` (`Expr.evaluate_type`). -/
def own_condition (e : Expr) : Bool :=
  match e.evaluate with
  | Val.bool r => r
  | _ => true

/-- `all_conditions_true()`. -/
def all_conditions_true : Expr → Bool
  | value _ => true
  | expected _ => true
  | equal a b =>
    a.all_conditions_true && b.all_conditions_true &&
      ((equal a b).is_expected_only || (equal a b).own_condition)

/-- Whether a `value` leaf occurs anywhere in the tree; written from the
words of the specification, to be compared with `is_expected_only`. -/
def has_value_leaf : Expr → Bool
  | value _ => true
  | expected _ => false
  | equal a b => a.has_value_leaf || b.has_value_leaf

end Expr

/-! ## Output stream -/

/-- The colour tokens of `detail::format`. -/
def format.pass : String := "\x1b[92m"

/-- Token `detail::format::fail`. -/
def format.fail : String := "\x1b[91m"

/-- Token `detail::format::ref`. -/
def format.ref : String := "\x1b[94m"

/-- Token `detail::format::sum`. -/
def format.sum : String := "\x1b[93m"

/-- Token `detail::format::reset`. -/
def format.reset : String := "\x1b[0m"

/-- `detail::format::color`. -/
def format.color (passed : Bool) : String :=
  if passed then format.pass else format.fail

/-- Bit `std::ios_base::boolalpha` of the `fmtflags` word (libstdc++). -/
def boolalpha : Nat := 1

/-- The `fmtflags` word of a fresh stream, `skipws | dec` (libstdc++). -/
def default_flags : Nat := 4098

/-- A `std::ostream`: the characters written so far and the `fmtflags` word. -/
structure ostream where
  text : String
  flags : Nat
  deriving DecidableEq

namespace ostream

/-- Insertion of characters, `os << "..."`. -/
def put (os : ostream) (s : String) : ostream :=
  ⟨os.text ++ s, os.flags⟩

/-- Manipulator `os << std::boolalpha`. -/
def set_boolalpha (os : ostream) : ostream :=
  ⟨os.text, os.flags ||| boolalpha⟩

/-- Setter `os.flags(f)`. -/
def set_flags (os : ostream) (f : Nat) : ostream :=
  ⟨os.text, f⟩

/-- Insertion `os << n` of an integer of type `T`: a character type is
written as one character, any other type as a decimal numeral.  The numeral
is that of the default numeric format: the bits of the flag word for the
base, `showbase`, `showpos` and `uppercase` are not modelled, nor is a field
width, so the text of a number is that of the code on the streams whose
numeric format is the default one. -/
def insert_int (os : ostream) (T : IntTy) (n : Int) : ostream :=
  if T.bits = 8 then os.put (String.singleton (Char.ofNat (n % 256).toNat))
  else os.put (toString n)

/-- Insertion `os << value_`.  A `bool` is written by name under `boolalpha`;
a constant goes through `operator<<(std::ostream&, constant const&)`, which
is `os << v()`. -/
def insert (os : ostream) : Val → ostream
  | Val.bool b =>
    if os.flags.testBit 0 then os.put (if b then "true" else "false")
    else os.put (if b then "1" else "0")
  | Val.int T n => os.insert_int T n
  | Val.string_view s => os.put s
  | Val.constant c => os.insert_int c.T c.value_
  | Val.tribool t =>
    if os.flags.testBit 0 then
      os.put (match t with
        | tribool.false_value => "false"
        | tribool.true_value => "true"
        | tribool.indeterminate_value => "indeterminate")
    else
      os.put (match t with
        | tribool.false_value => "0"
        | tribool.true_value => "1"
        | tribool.indeterminate_value => "2")

end ostream

/-- The characters of `std::quoted(s)`: a double quote, `s` with a backslash
before every double quote and backslash, a double quote. -/
def quoted (s : String) : String :=
  let delim := Char.ofNat 34
  let escape := Char.ofNat 92
  String.singleton delim ++
    String.mk (s.data.foldr
      (fun c acc => if c = delim ∨ c = escape then escape :: c :: acc else c :: acc) []) ++
    String.singleton delim

/-- The name GCC gives an integer type in `__PRETTY_FUNCTION__`. -/
def int_type_name : IntTy → String
  | IntTy.char => "char"
  | IntTy.schar => "signed char"
  | IntTy.uchar => "unsigned char"
  | IntTy.short => "short int"
  | IntTy.ushort => "short unsigned int"
  | IntTy.int => "int"
  | IntTy.uint => "unsigned int"
  | IntTy.long => "long int"
  | IntTy.ulong => "long unsigned int"
  | IntTy.llong => "long long int"
  | IntTy.ullong => "long long unsigned int"

/-- The name GCC writes for the type `T` in the `__PRETTY_FUNCTION__` of a
function of namespace `ut::detail`. -/
def gcc_type_name : Ty → String
  | Ty.bool => "bool"
  | Ty.int T => int_type_name T
  | Ty.string_view => "std::basic_string_view<char>"
  | Ty.constant T => "arithmetic_constant<" ++ int_type_name T ++ ">"
  | Ty.tribool => "tribool"

/-- The array `__PRETTY_FUNCTION__` inside `detail::type_name<T>()`, without
its terminating zero. -/
def pretty_function (T : Ty) : String :=
  "consteval std::string_view ut::detail::type_name() [with T = " ++ gcc_type_name T ++
    "; std::string_view = std::basic_string_view<char>]"

/-- `detail::type_name<T>()`: the view
`{&__PRETTY_FUNCTION__[61], sizeof(__PRETTY_FUNCTION__) - 112}`, where `sizeof`
counts the terminating zero. -/
def type_name (T : Ty) : String :=
  String.mk (((pretty_function T).data.drop 61).take ((pretty_function T).data.length + 1 - 112))

/-! ## Printer -/

set_option linter.unusedVariables false

/-- `basic_value<T>::print`. -/
def basic_value.print (value_ : Val) (os : ostream) (color : String)
    (print_results print_types : Bool) : ostream :=
  let type_name :=
    match value_.type with
    | Ty.constant T => type_name (Ty.int T)
    | t => type_name t
  let os := if print_types then ((os.put "<").put type_name).put ">(" else os
  let os := os.put color
  let os :=
    match value_ with
    | Val.string_view s => os.put (quoted s)
    | _ => os.insert value_
  let os := os.put format.reset
  if print_types then os.put ")" else os

/-- The member functions `value::print`, `expected::print`, `equal::print`. -/
def Expr.print : Expr → ostream → Bool → Bool → Bool → ostream
  | Expr.value v, os, pass, print_results, print_types =>
    basic_value.print v os (format.color pass) print_results print_types
  | Expr.expected v, os, _, print_results, print_types =>
    basic_value.print v os format.ref print_results print_types
  | Expr.equal a b, os, pass, print_results, print_types =>
    let sub_pass :=
      match (Expr.equal a b).evaluate with
      | Val.bool r => r
      | _ => pass
    let os := os.put "("
    let os := a.print os sub_pass print_results print_types
    let os := ((os.put (if sub_pass then format.pass else format.fail)).put " == ").put format.reset
    let os := b.print os sub_pass print_results print_types
    let os :=
      if print_results then
        let os := os.put " => "
        if (Expr.equal a b).is_expected_only then
          basic_value.print (Expr.equal a b).evaluate os format.ref print_results print_types
        else
          basic_value.print (Expr.equal a b).evaluate os (format.color sub_pass)
            print_results print_types
      else os
    os.put ")"

/-! ## Assertion entry point -/

/-- `expect`: the `static_assert` is the `Except.error`, carrying its
message.  The function is the run of `expect` on a tree that builds, that is
on a tree in `Expr.well_formed`: a tree with an ill-formed comparison does not
instantiate `all_conditions_true` and `print`, and has no run; whether the
call builds is `expect_builds`. -/
def expect (expr : Expr) (cout : ostream) : Except String ostream :=
  if expr.is_expected_only then
    Except.error "Your condition dosn't contain any test values."
  else
    let flags := cout.flags
    let cout := cout.set_boolalpha
    let pass := expr.all_conditions_true
    let cout := (((cout.put (format.color pass)).put (if pass then "pass" else "fail")).put
      format.reset).put ": "
    let cout := expr.print cout pass false false
    let cout := cout.put "\n"
    let cout :=
      if !pass then
        let cout := cout.put "      "
        let cout := expr.print cout pass true false
        let cout := cout.put "\n"
        let cout := cout.put "      "
        let cout := expr.print cout pass false true
        let cout := cout.put "\n"
        let cout := cout.put "      "
        let cout := expr.print cout pass true true
        cout.put "\n"
      else cout
    Except.ok (cout.set_flags flags)

/-- Whether the call `ut::expect(expr)` builds: every comparison of the tree
is well-formed, so that `all_conditions_true` and `print` instantiate
`operator()`, and the `static_assert` of `expect` holds. -/
def expect_builds (expr : Expr) : Bool :=
  expr.type.isSome && !expr.is_expected_only

/-- The operator `ut::operators::operator==` on two expressions:
`equal(a, b)`. -/
def operators.operator_eq (a b : Expr) : Expr :=
  equal (Operand.expression a) (Operand.expression b)

/-- The characters that `os << v` writes on a stream whose flag word is
`flags`. -/
def Val.inserted (v : Val) (flags : Nat) : String :=
  (ostream.insert ⟨"", flags⟩ v).text

/-- The characters that `basic_value<T>::print` writes on a stream whose flag
word is `flags`. -/
def basic_value.printed (value_ : Val) (flags : Nat) (color : String)
    (print_results print_types : Bool) : String :=
  (basic_value.print value_ ⟨"", flags⟩ color print_results print_types).text

/-- The characters that `e.print(os, pass, print_results, print_types)`
writes on a stream whose flag word is `flags`. -/
def Expr.printed (e : Expr) (flags : Nat) (pass print_results print_types : Bool) : String :=
  (e.print ⟨"", flags⟩ pass print_results print_types).text

/-- Whether the node is a `value` or an `expected` leaf. -/
def Expr.is_leaf : Expr → Bool
  | Expr.equal _ _ => false
  | _ => true

/-! ## Names for parts of the printer and of the specification -/

/-- The constant `type_name` local to `basic_value<T>::print`: the name of
`T::value_type` when `T` is a constant type, else the name of `T`. -/
def basic_value.type_name (value_ : Val) : String :=
  match value_.type with
  | Ty.constant T => ut.type_name (Ty.int T)
  | t => ut.type_name t

/-- The characters `basic_value<T>::print` writes between the colour token and
the reset token on a stream whose flag word is `flags`: `std::quoted` of a
string-like value, `os << value_` of any other. -/
def basic_value.value_text (value_ : Val) (flags : Nat) : String :=
  match value_ with
  | Val.string_view s => quoted s
  | v => v.inserted flags

/-- The lambda that initialises `sub_pass` in `equal::print`: the result of
`(*this)()` when its type is `bool`, else the `pass` the node was given. -/
def Expr.sub_pass (e : Expr) (pass : Bool) : Bool :=
  match e.evaluate with
  | Val.bool r => r
  | _ => pass

/-- The text of the specification for a quoted string: every double quote and
every backslash of `s` preceded by a backslash. -/
def escaped (s : String) : String :=
  String.mk (s.data.flatMap
    (fun c => if c = Char.ofNat 34 ∨ c = Char.ofNat 92 then [Char.ofNat 92, c] else [c]))

/-- Every node of the tree, the root first. -/
def Expr.nodes : Expr → List Expr
  | Expr.value v => [Expr.value v]
  | Expr.expected v => [Expr.expected v]
  | Expr.equal a b => Expr.equal a b :: (a.nodes ++ b.nodes)

/-- Whether every comparison in the tree is well-formed with result type
`bool`. -/
def Expr.comparisons_boolean (e : Expr) : Bool :=
  e.nodes.all (fun n => n.is_leaf || decide (n.type = some Ty.bool))

/-- The two unary operators of `arithmetic_constant`. -/
inductive unary_op
  | plus | minus
  deriving DecidableEq

/-- Application of `operator+` or `operator-` to a constant. -/
def arithmetic_constant.apply (c : arithmetic_constant) : unary_op → arithmetic_constant
  | unary_op.plus => c.operator_plus
  | unary_op.minus => c.operator_minus

/-- Application of a sequence of unary operators, the first of the list
first. -/
def arithmetic_constant.apply_all (c : arithmetic_constant) (ops : List unary_op) :
    arithmetic_constant :=
  ops.foldl arithmetic_constant.apply c

/-- The text `s` is obtained from the text `t` by deleting characters only. -/
def is_subsequence (s t : String) : Prop := List.Sublist s.data t.data

/-! ## Basic facts about the embedding -/

set_option maxRecDepth 100000

set_option maxHeartbeats 4000000

/-- The value of a well-formed comparison has the comparison's static type. -/
theorem operator_eq_type (a b : Val) (t : Ty) (h : eq_type a.type b.type = some t) :
    (operator_eq a b).type = t := by
  cases a <;> cases b <;>
    simp [eq_type, Ty.unwrap, Val.type] at h <;>
    simp [operator_eq, builtin_eq, Val.unwrap, Val.type, h]

/-- The value of a well-formed expression has the expression's static type. -/
theorem Expr.evaluate_type (e : Expr) : ∀ t, e.type = some t → e.evaluate.type = t := by
  induction e with
  | value v => intro t h; simpa [Expr.type, Expr.evaluate] using h
  | expected v => intro t h; simpa [Expr.type, Expr.evaluate] using h
  | equal a b iha ihb =>
    intro t h
    simp only [Expr.type] at h
    cases ha : a.type with
    | none => simp [ha] at h
    | some s =>
      cases hb : b.type with
      | none => simp [ha, hb] at h
      | some u =>
        simp only [ha, hb] at h
        have h1 := iha s ha
        have h2 := ihb u hb
        simp only [Expr.evaluate]
        exact operator_eq_type _ _ t (by rw [h1, h2]; exact h)

/-- The view `detail::type_name<T>()` takes of `__PRETTY_FUNCTION__` is the
name of `T`: 61 characters stand before it, and 50 characters and the
terminating zero after it. -/
theorem type_name_eq_gcc_type_name (T : Ty) : type_name T = gcc_type_name T := by
  have h1 : (pretty_function T).data =
      "consteval std::string_view ut::detail::type_name() [with T = ".data ++
        ((gcc_type_name T).data ++
          "; std::string_view = std::basic_string_view<char>]".data) := by
    simp [pretty_function, String.data_append, List.append_assoc]
  have h2 : "consteval std::string_view ut::detail::type_name() [with T = ".data.length = 61 := by
    decide
  have h3 : "; std::string_view = std::basic_string_view<char>]".data.length = 50 := by
    decide
  unfold type_name
  rw [h1, List.drop_left' h2]
  simp only [List.length_append, h2, h3]
  rw [List.take_left' (by omega)]

/-- A value has type `bool` exactly when it is a `Val.bool`. -/
theorem Val.type_eq_bool (v : Val) : v.type = Ty.bool ↔ ∃ r, v = Val.bool r := by
  cases v <;> simp [Val.type]

/-- An expression is expected-only exactly when no `value` leaf occurs in
it. -/
theorem Expr.is_expected_only_iff (e : Expr) :
    e.is_expected_only = true ↔ e.has_value_leaf = false := by
  induction e with
  | value v => simp [Expr.is_expected_only, Expr.has_value_leaf]
  | expected v => simp [Expr.is_expected_only, Expr.has_value_leaf]
  | equal a b iha ihb =>
    simp only [Expr.is_expected_only, Expr.has_value_leaf, Bool.and_eq_true,
      Bool.or_eq_false_iff]
    rw [iha, ihb]

/-- Insertion appends to the text and keeps the flags. -/
theorem ostream.insert_appends (os : ostream) (v : Val) :
    os.insert v = ⟨os.text ++ v.inserted os.flags, os.flags⟩ := by
  cases v with
  | bool b => simp only [Val.inserted, ostream.insert, ostream.put]; split <;> simp
  | int T n =>
    simp only [Val.inserted, ostream.insert, ostream.insert_int, ostream.put]; split <;> simp
  | string_view s => simp [Val.inserted, ostream.insert, ostream.put]
  | constant c =>
    simp only [Val.inserted, ostream.insert, ostream.insert_int, ostream.put]; split <;> simp
  | tribool t => simp only [Val.inserted, ostream.insert, ostream.put]; split <;> simp

/-- Printing a leaf appends to the text and keeps the flags. -/
theorem basic_value.print_leaf_appends (v : Val) (os : ostream) (color : String) (pr pt : Bool) :
    basic_value.print v os color pr pt =
      ⟨os.text ++ basic_value.printed v os.flags color pr pt, os.flags⟩ := by
  cases pt <;> cases v <;>
    simp only [basic_value.printed, basic_value.print, ostream.put, ostream.insert_appends,
      if_true, if_false, Bool.false_eq_true, String.append_assoc, String.empty_append]

/-- Printing an expression appends to the text and keeps the flags. -/
theorem Expr.print_appends (e : Expr) : ∀ (os : ostream) (pass pr pt : Bool),
    e.print os pass pr pt = ⟨os.text ++ e.printed os.flags pass pr pt, os.flags⟩ := by
  induction e with
  | value v =>
    intro os pass pr pt
    simp only [Expr.print, Expr.printed, basic_value.print_leaf_appends, String.empty_append]
  | expected v =>
    intro os pass pr pt
    simp only [Expr.print, Expr.printed, basic_value.print_leaf_appends, String.empty_append]
  | equal a b iha ihb =>
    intro os pass pr pt
    rw [Expr.printed]
    cases pr <;> cases hieo : (Expr.equal a b).is_expected_only <;>
      simp only [Expr.print, ostream.put, iha, ihb, basic_value.print_leaf_appends, hieo,
        if_true, if_false, Bool.false_eq_true, String.append_assoc, String.empty_append]

/-- The output of `expect` on an expression that is not expected-only. -/
theorem expect_eq (e : Expr) (cout : ostream) (h : e.is_expected_only = false) :
    expect e cout = Except.ok
      ⟨cout.text ++
        (format.color e.all_conditions_true ++
          (if e.all_conditions_true then "pass" else "fail") ++ format.reset ++ ": " ++
          e.printed (cout.flags ||| boolalpha) e.all_conditions_true false false ++ "\n" ++
          (if e.all_conditions_true then ""
           else
            "      " ++ e.printed (cout.flags ||| boolalpha) e.all_conditions_true true false ++
              "\n" ++
            "      " ++ e.printed (cout.flags ||| boolalpha) e.all_conditions_true false true ++
              "\n" ++
            "      " ++ e.printed (cout.flags ||| boolalpha) e.all_conditions_true true true ++
              "\n")),
        cout.flags⟩ := by
  cases hp : e.all_conditions_true <;>
    simp only [expect, h, hp, Bool.false_eq_true, if_true, if_false, ostream.put,
      ostream.set_boolalpha, ostream.set_flags, Expr.print_appends, Bool.not_true, Bool.not_false,
      String.append_assoc, String.append_empty]

/-! ## C1: the evaluator on `equal` -/

/-- C1, as stated, fails: for the two `tribool` values `false` and `true`
under test, `all_conditions_true` is true although neither are both children
expected-only nor is the comparison's result `true`. -/
theorem C1_counterexample :
    ¬ ((Expr.equal (Expr.value (Val.tribool tribool.false_value))
          (Expr.value (Val.tribool tribool.true_value))).all_conditions_true =
        ((Expr.value (Val.tribool tribool.false_value)).all_conditions_true &&
          (Expr.value (Val.tribool tribool.true_value)).all_conditions_true &&
          (((Expr.value (Val.tribool tribool.false_value)).is_expected_only &&
              (Expr.value (Val.tribool tribool.true_value)).is_expected_only) ||
            decide (operator_eq (Expr.value (Val.tribool tribool.false_value)).evaluate
              (Expr.value (Val.tribool tribool.true_value)).evaluate = Val.bool true)))) := by
  decide

/-- C1 (amended): for all expression nodes `A`, `B` whose comparison is
well-formed with result type `t`, `Equal(A,B).all_conditions_true()` equals
`A.all_conditions_true()` AND `B.all_conditions_true()` AND (both are
expected-only OR `t` is not `bool` OR `A.evaluate() == B.evaluate()` is true);
`Value` and `Expected` leaves always return true. -/
theorem C1_all_conditions_true (A B : Expr) (t : Ty) (h : (Expr.equal A B).type = some t) :
    (Expr.equal A B).all_conditions_true =
        (A.all_conditions_true && B.all_conditions_true &&
          ((A.is_expected_only && B.is_expected_only) || decide (t ≠ Ty.bool) ||
            decide (operator_eq A.evaluate B.evaluate = Val.bool true)))
      ∧ (∀ v, (Expr.value v).all_conditions_true = true)
      ∧ (∀ v, (Expr.expected v).all_conditions_true = true) := by
  refine ⟨?_, fun _ => rfl, fun _ => rfl⟩
  have ht := Expr.evaluate_type _ t h
  simp only [Expr.evaluate] at ht
  simp only [Expr.all_conditions_true, Expr.is_expected_only, Expr.own_condition, Expr.evaluate]
  congr 1
  by_cases hb : t = Ty.bool
  · subst hb
    obtain ⟨r, hr⟩ := (Val.type_eq_bool _).1 ht
    rw [hr]
    cases r <;> simp
  · have hne : ∀ r, operator_eq A.evaluate B.evaluate ≠ Val.bool r := by
      intro r hr
      rw [hr] at ht
      exact hb ht.symm
    cases hv : operator_eq A.evaluate B.evaluate with
    | bool r => exact absurd hv (hne r)
    | int T n => simp [hb]
    | string_view s => simp [hb]
    | constant c => simp [hb]
    | tribool x => simp [hb]

/-- C1 at concrete inputs: a failing comparison under test, an unchecked
comparison of two reference values, a comparison whose result is no `bool`. -/
theorem C1_all_conditions_true_witness :
    ((Expr.equal (Expr.expected (Val.int IntTy.int 1))
        (Expr.value (Val.int IntTy.int 2))).all_conditions_true = false)
      ∧ ((Expr.equal (Expr.expected (Val.int IntTy.int 1))
        (Expr.expected (Val.int IntTy.int 2))).all_conditions_true = true)
      ∧ ((Expr.equal (Expr.value (Val.tribool tribool.false_value))
        (Expr.value (Val.tribool tribool.true_value))).all_conditions_true = true) := by
  refine ⟨?_, ?_, ?_⟩
  · rw [(C1_all_conditions_true (Expr.expected (Val.int IntTy.int 1))
      (Expr.value (Val.int IntTy.int 2)) Ty.bool (by decide)).1]
    decide
  · rw [(C1_all_conditions_true (Expr.expected (Val.int IntTy.int 1))
      (Expr.expected (Val.int IntTy.int 2)) Ty.bool (by decide)).1]
    decide
  · rw [(C1_all_conditions_true (Expr.value (Val.tribool tribool.false_value))
      (Expr.value (Val.tribool tribool.true_value)) Ty.tribool (by decide)).1]
    decide

/-! ## C2: expected-only nodes -/

/-- C2: `is_expected_only(e)` is true if and only if `e` contains no `Value`
leaf; `Value(v)` gives false, `Expected(v)` gives true, `Equal(A,B)` gives the
conjunction of its children. -/
theorem C2_is_expected_only (e : Expr) :
    (e.is_expected_only = true ↔ e.has_value_leaf = false)
      ∧ (∀ v, (Expr.value v).is_expected_only = false)
      ∧ (∀ v, (Expr.expected v).is_expected_only = true)
      ∧ (∀ A B : Expr, (Expr.equal A B).is_expected_only =
          (A.is_expected_only && B.is_expected_only)) :=
  ⟨Expr.is_expected_only_iff e, fun _ => rfl, fun _ => rfl, fun _ _ => rfl⟩

/-! ## C3: the report of `expect` -/

/-- C3: for every expression `e` that is not expected-only, with
`p = e.all_conditions_true()`, `expect(e)` appends to the stream exactly
`color(p)`, `"pass"` or `"fail"`, the reset token, `": "`, the bare rendering
and a newline, followed when `p` is false by three lines of six spaces, a
rendering (results only, types only, both) and a newline, and by nothing when
`p` is true.  The renderings are those of `print` under `boolalpha`. -/
theorem C3_expect_output (e : Expr) (cout : ostream) (h : e.is_expected_only = false) :
    expect e cout = Except.ok
      ⟨cout.text ++
        (format.color e.all_conditions_true ++
          (if e.all_conditions_true then "pass" else "fail") ++ format.reset ++ ": " ++
          e.printed (cout.flags ||| boolalpha) e.all_conditions_true false false ++ "\n" ++
          (if e.all_conditions_true then ""
           else
            "      " ++ e.printed (cout.flags ||| boolalpha) e.all_conditions_true true false ++
              "\n" ++
            "      " ++ e.printed (cout.flags ||| boolalpha) e.all_conditions_true false true ++
              "\n" ++
            "      " ++ e.printed (cout.flags ||| boolalpha) e.all_conditions_true true true ++
              "\n")),
        cout.flags⟩ :=
  expect_eq e cout h

/-- C3 at `value(true) == value(false)` on a fresh stream: the four lines of
a failing report. -/
theorem C3_expect_output_witness :
    (Expr.equal (Expr.value (Val.bool true)) (Expr.value (Val.bool false))).is_expected_only
        = false
      ∧ expect (Expr.equal (Expr.value (Val.bool true)) (Expr.value (Val.bool false)))
          ⟨"", default_flags⟩ =
        Except.ok
          ⟨format.fail ++ "fail" ++ format.reset ++ ": " ++
              "(" ++ format.fail ++ "true" ++ format.reset ++
                format.fail ++ " == " ++ format.reset ++
                format.fail ++ "false" ++ format.reset ++ ")" ++ "\n" ++
            "      " ++ "(" ++ format.fail ++ "true" ++ format.reset ++
                format.fail ++ " == " ++ format.reset ++
                format.fail ++ "false" ++ format.reset ++
                " => " ++ format.fail ++ "false" ++ format.reset ++ ")" ++ "\n" ++
            "      " ++ "(" ++ "<bool>(" ++ format.fail ++ "true" ++ format.reset ++ ")" ++
                format.fail ++ " == " ++ format.reset ++
                "<bool>(" ++ format.fail ++ "false" ++ format.reset ++ ")" ++ ")" ++ "\n" ++
            "      " ++ "(" ++ "<bool>(" ++ format.fail ++ "true" ++ format.reset ++ ")" ++
                format.fail ++ " == " ++ format.reset ++
                "<bool>(" ++ format.fail ++ "false" ++ format.reset ++ ")" ++
                " => " ++ "<bool>(" ++ format.fail ++ "false" ++ format.reset ++ ")" ++ ")" ++
                "\n",
            default_flags⟩ :=
  ⟨by decide,
    (C3_expect_output (Expr.equal (Expr.value (Val.bool true)) (Expr.value (Val.bool false)))
      ⟨"", default_flags⟩ (by decide)).trans (by rfl)⟩

/-! ## C4: what `expect` accepts -/

/-- C4: `expect` accepts an expression, that is a tree whose comparisons are
well-formed and whose leaves hold values of their types, if and only if it is
not expected-only: then the call builds and returns.  An expression without a
`Value` leaf is rejected by the `static_assert`, with no evaluation and no
output; an expression with a `Value` leaf is accepted and its report starts
with the coloured `pass` or `fail` word.  `Equal(Expected(1), Expected(1))`
and an `Equal` of two typed constants are rejected.  A tree with an
ill-formed comparison, such as `value("x") == value(1)`, is no expression:
the call does not build, and the theorem does not speak of it. -/
theorem C4_expect_accepts (e : Expr) (cout : ostream) (hw : e.well_formed = true) :
    ((expect_builds e = true ∧ ∃ os, expect e cout = Except.ok os) ↔
        e.is_expected_only = false)
      ∧ (e.has_value_leaf = false →
          expect_builds e = false ∧
          expect e cout = Except.error "Your condition dosn't contain any test values.")
      ∧ (e.has_value_leaf = true →
          expect_builds e = true ∧
          ∃ rest, expect e cout = Except.ok
            ⟨cout.text ++ (format.color e.all_conditions_true ++
              (if e.all_conditions_true then "pass" else "fail") ++ format.reset ++ ": " ++
              rest), cout.flags⟩)
      ∧ expect (Expr.equal (Expr.expected (Val.int IntTy.int 1))
            (Expr.expected (Val.int IntTy.int 1))) cout =
          Except.error "Your condition dosn't contain any test values."
      ∧ (∀ c d : arithmetic_constant,
          expect (equal (Operand.non_expression (Val.constant c))
            (Operand.non_expression (Val.constant d))) cout =
          Except.error "Your condition dosn't contain any test values.") := by
  have hleaf := Expr.is_expected_only_iff e
  have htype : e.type.isSome = true := by
    simp only [Expr.well_formed, Bool.and_eq_true] at hw
    exact hw.1
  refine ⟨?_, ?_, ?_, ?_, ?_⟩
  · constructor
    · rintro ⟨_, os, hos⟩
      cases h : e.is_expected_only with
      | false => rfl
      | true => simp [expect, h] at hos
    · intro h
      exact ⟨by simp [expect_builds, htype, h], _, expect_eq e cout h⟩
  · intro h
    exact ⟨by simp [expect_builds, hleaf.2 h], by simp [expect, hleaf.2 h]⟩
  · intro h
    have hne : e.is_expected_only = false := by
      cases h2 : e.is_expected_only with
      | false => rfl
      | true => rw [hleaf.1 h2] at h; cases h
    refine ⟨by simp [expect_builds, htype, hne], ?_⟩
    refine ⟨e.printed (cout.flags ||| boolalpha) e.all_conditions_true false false ++ "\n" ++
      (if e.all_conditions_true then ""
       else
        "      " ++ e.printed (cout.flags ||| boolalpha) e.all_conditions_true true false ++
          "\n" ++
        "      " ++ e.printed (cout.flags ||| boolalpha) e.all_conditions_true false true ++
          "\n" ++
        "      " ++ e.printed (cout.flags ||| boolalpha) e.all_conditions_true true true ++
          "\n"), ?_⟩
    rw [expect_eq e cout hne]
    simp only [String.append_assoc]
  · rfl
  · intro c d
    rfl

/-- C4 at `value("tested") == expected("tested")` of `main`, accepted, and at
`expected("tested") == expected("tested")`, rejected; both are well-formed,
and `value("x") == value(1)` is not. -/
theorem C4_expect_accepts_witness :
    (operators.operator_eq (Expr.value (Val.string_view "tested"))
        (Expr.expected (Val.string_view "tested"))).well_formed = true
      ∧ (∃ os, expect (operators.operator_eq (Expr.value (Val.string_view "tested"))
          (Expr.expected (Val.string_view "tested"))) ⟨"", default_flags⟩ = Except.ok os)
      ∧ (operators.operator_eq (Expr.expected (Val.string_view "tested"))
        (Expr.expected (Val.string_view "tested"))).well_formed = true
      ∧ expect (operators.operator_eq (Expr.expected (Val.string_view "tested"))
          (Expr.expected (Val.string_view "tested"))) ⟨"", default_flags⟩ =
        Except.error "Your condition dosn't contain any test values."
      ∧ (operators.operator_eq (Expr.value (Val.string_view "x"))
        (Expr.value (Val.int IntTy.int 1))).well_formed = false
      ∧ expect_builds (operators.operator_eq (Expr.value (Val.string_view "x"))
        (Expr.value (Val.int IntTy.int 1))) = false :=
  ⟨by decide,
    ((C4_expect_accepts (operators.operator_eq (Expr.value (Val.string_view "tested"))
      (Expr.expected (Val.string_view "tested"))) ⟨"", default_flags⟩ (by decide)).1.mpr
      (by decide)).2,
    by decide,
    ((C4_expect_accepts (operators.operator_eq (Expr.expected (Val.string_view "tested"))
      (Expr.expected (Val.string_view "tested"))) ⟨"", default_flags⟩ (by decide)).2.1
      (by decide)).2,
    by decide, by decide⟩

/-! ## C5: reflexivity -/

/-- C5: for every `x` whose comparison with itself is true,
`Equal(Value(x), Value(x)).all_conditions_true()` is true. -/
theorem C5_reflexive (x : Val) (h : operator_eq x x = Val.bool true) :
    (operators.operator_eq (Expr.value x) (Expr.value x)).all_conditions_true = true := by
  simp [operators.operator_eq, equal, to_expression, Expr.all_conditions_true,
    Expr.own_condition, Expr.evaluate, h]

/-- C5 at `value("tested"sv) == value("tested"sv)`, which reports pass. -/
theorem C5_reflexive_witness :
    operator_eq (Val.string_view "tested") (Val.string_view "tested") = Val.bool true
      ∧ (operators.operator_eq (Expr.value (Val.string_view "tested"))
          (Expr.value (Val.string_view "tested"))).all_conditions_true = true
      ∧ expect (operators.operator_eq (Expr.value (Val.string_view "tested"))
          (Expr.value (Val.string_view "tested"))) ⟨"", default_flags⟩ =
        Except.ok
          ⟨format.pass ++ "pass" ++ format.reset ++ ": " ++
              "(" ++ format.pass ++ "\"tested\"" ++ format.reset ++
                format.pass ++ " == " ++ format.reset ++
                format.pass ++ "\"tested\"" ++ format.reset ++ ")" ++ "\n",
            default_flags⟩ :=
  ⟨by decide, C5_reflexive (Val.string_view "tested") (by decide), by rfl⟩

/-! ## C6: validated conversion of literals -/

/-- A value up to the maximum of `T` is unchanged by the conversion to `T`. -/
theorem static_cast_of_le_max (T : IntTy) (v : Nat) (h : v ≤ T.numeric_limits_max) :
    static_cast T (v : Int) = (v : Int) := by
  cases T <;>
    simp [IntTy.numeric_limits_max, IntTy.is_signed, IntTy.bits] at h <;>
    simp [static_cast, IntTy.is_signed, IntTy.bits] <;>
    omega

/-- C6: for every integer target type `T` and every literal value `v`,
`validating_cast<T>(v)` succeeds if and only if `v` is at most the maximum of
`T`, and then the constant has exactly the value `v`.  The maxima are those of
the 8, 16, 32 and 64 bit types; `127_i8` is accepted with value 127, `128_i8`
is rejected. -/
theorem C6_validating_cast (T : IntTy) (v : Nat) :
    ((∃ r, validating_cast T v = some r) ↔ v ≤ T.numeric_limits_max)
      ∧ (∀ r, validating_cast T v = some r → r = (v : Int))
      ∧ ((∃ c, literal T v = some c) ↔ v ≤ T.numeric_limits_max)
      ∧ (∀ c, literal T v = some c → c = ⟨T, (v : Int)⟩)
      ∧ (T.numeric_limits_max =
          if T.is_signed then 2 ^ (T.bits - 1) - 1 else 2 ^ T.bits - 1)
      ∧ (IntTy.schar.numeric_limits_max = 127 ∧ IntTy.uchar.numeric_limits_max = 255
          ∧ IntTy.short.numeric_limits_max = 32767 ∧ IntTy.ushort.numeric_limits_max = 65535
          ∧ IntTy.int.numeric_limits_max = 2147483647
          ∧ IntTy.uint.numeric_limits_max = 4294967295
          ∧ IntTy.long.numeric_limits_max = 9223372036854775807
          ∧ IntTy.ulong.numeric_limits_max = 18446744073709551615)
      ∧ literal_i8 127 = some ⟨IntTy.schar, 127⟩
      ∧ literal_i8 128 = none := by
  have h1 : ∀ r, validating_cast T v = some r → r = (v : Int) := by
    intro r hr
    unfold validating_cast at hr
    split at hr
    · cases hr
    · rw [static_cast_of_le_max T v (by omega)] at hr
      exact (Option.some.inj hr).symm
  have h2 : (∃ r, validating_cast T v = some r) ↔ v ≤ T.numeric_limits_max := by
    unfold validating_cast
    constructor
    · rintro ⟨r, hr⟩
      split at hr
      · cases hr
      · omega
    · intro h
      exact ⟨_, if_neg (by omega)⟩
  refine ⟨h2, h1, ?_, ?_, rfl, by decide, by decide, by decide⟩
  · rw [← h2]
    unfold literal
    constructor
    · rintro ⟨c, hc⟩
      cases hv : validating_cast T v with
      | none => simp [hv] at hc
      | some r => exact ⟨r, rfl⟩
    · rintro ⟨r, hr⟩
      exact ⟨⟨T, r⟩, by simp [hr]⟩
  · intro c hc
    unfold literal at hc
    cases hv : validating_cast T v with
    | none => simp [hv] at hc
    | some r =>
      simp [hv] at hc
      rw [← hc, h1 r hv]

/-! ## C7: operand promotion -/

/-- A value in the range of `T` is unchanged by the conversion to the type
`T` promotes to. -/
theorem static_cast_promote_of_in_range (T : IntTy) (n : Int)
    (h : (Val.int T n).in_range = true) : static_cast (IntTy.common T T) n = n := by
  cases T <;>
    simp [Val.in_range, IntTy.numeric_limits_max, IntTy.numeric_limits_min, IntTy.is_signed,
      IntTy.bits] at h <;>
    simp [static_cast, IntTy.common, IntTy.promote, IntTy.rank, IntTy.is_signed, IntTy.bits] <;>
    omega

/-- A value in the range of its type that is not negative is unchanged by the
conversion to the common type it has with any other type. -/
theorem static_cast_common_of_nonneg (S T : IntTy) (a : Int)
    (h : (Val.int S a).in_range = true) (h0 : 0 ≤ a) :
    static_cast (IntTy.common S T) a = a ∧ static_cast (IntTy.common T S) a = a := by
  cases S <;> cases T <;>
    simp [Val.in_range, IntTy.numeric_limits_max, IntTy.numeric_limits_min, IntTy.is_signed,
      IntTy.bits] at h <;>
    simp [static_cast, IntTy.common, IntTy.promote, IntTy.rank, IntTy.is_signed, IntTy.bits,
      IntTy.to_unsigned] <;>
    omega

/-- A value in the range of its type is unchanged by the conversion to a
common type that is signed. -/
theorem static_cast_common_of_signed (S T : IntTy) (a : Int)
    (h : (Val.int S a).in_range = true) :
    ((IntTy.common S T).is_signed = true → static_cast (IntTy.common S T) a = a)
      ∧ ((IntTy.common T S).is_signed = true → static_cast (IntTy.common T S) a = a) := by
  cases S <;> cases T <;>
    simp [Val.in_range, IntTy.numeric_limits_max, IntTy.numeric_limits_min, IntTy.is_signed,
      IntTy.bits] at h <;>
    simp [static_cast, IntTy.common, IntTy.promote, IntTy.rank, IntTy.is_signed, IntTy.bits,
      IntTy.to_unsigned] <;>
    omega

/-- C7, as stated, fails: the typed constant `-1_i` and the raw value
`4294967295u` are both in the range of their types and are different
numbers, yet `equal(-1_i, 4294967295u)` passes: the comparison converts `-1`
to `unsigned int`. -/
theorem C7_counterexample :
    literal_i 1 = some ⟨IntTy.int, 1⟩
      ∧ (Val.constant (arithmetic_constant.operator_minus ⟨IntTy.int, 1⟩)).in_range = true
      ∧ (Val.int IntTy.uint 4294967295).in_range = true
      ∧ ¬ ((equal (Operand.non_expression
              (Val.constant (arithmetic_constant.operator_minus ⟨IntTy.int, 1⟩)))
            (Operand.non_expression (Val.int IntTy.uint 4294967295))).all_conditions_true = true ↔
          (arithmetic_constant.operator_minus ⟨IntTy.int, 1⟩).value_ = 4294967295) := by
  decide

/-- C7 (amended): `to_expression` maps a typed constant to an `Expected` leaf,
any other non-expression value to a `Value` leaf, and an expression to
itself.  Hence for a typed constant `c` and a raw value `v`, `Equal(c, v)` has
an `Expected` left leaf and a `Value` right leaf, is not expected-only, and
passes exactly when the comparison `value_ == v` that C++ makes between the
stored value and `v` is true: for an integer `v`, when both values converted
to their common type are equal.  That is equality of the two numbers when `v`
has the declared type of `c`, when neither number is negative, or when the
common type is signed. -/
theorem C7_promotion (c : arithmetic_constant) (v : Val) (e : Expr)
    (hv : v.is_constant = false) :
    to_expression (Operand.non_expression (Val.constant c)) = Expr.expected (Val.constant c)
      ∧ to_expression (Operand.non_expression v) = Expr.value v
      ∧ to_expression (Operand.expression e) = e
      ∧ equal (Operand.non_expression (Val.constant c)) (Operand.non_expression v) =
          Expr.equal (Expr.expected (Val.constant c)) (Expr.value v)
      ∧ (equal (Operand.non_expression (Val.constant c))
          (Operand.non_expression v)).is_expected_only = false
      ∧ ((equal (Operand.non_expression (Val.constant c))
            (Operand.non_expression v)).all_conditions_true = true ↔
          builtin_eq (Val.int c.T c.value_) v = Val.bool true)
      ∧ (∀ n : Int, v = Val.int c.T n → (Val.constant c).in_range = true → v.in_range = true →
          ((equal (Operand.non_expression (Val.constant c))
            (Operand.non_expression v)).all_conditions_true = true ↔ c.value_ = n))
      ∧ (∀ (T : IntTy) (n : Int), v = Val.int T n →
          ((equal (Operand.non_expression (Val.constant c))
              (Operand.non_expression v)).all_conditions_true = true ↔
            static_cast (IntTy.common c.T T) c.value_ = static_cast (IntTy.common c.T T) n))
      ∧ (∀ (T : IntTy) (n : Int), v = Val.int T n →
          (Val.constant c).in_range = true → v.in_range = true →
          ((0 ≤ c.value_ ∧ 0 ≤ n) ∨ (IntTy.common c.T T).is_signed = true) →
          ((equal (Operand.non_expression (Val.constant c))
            (Operand.non_expression v)).all_conditions_true = true ↔ c.value_ = n)) := by
  have hto : to_expression (Operand.non_expression v) = Expr.value v := by
    simp [to_expression, hv]
  have hu : v.unwrap = v := by
    cases v <;> simp_all [Val.unwrap, Val.is_constant]
  have heq : equal (Operand.non_expression (Val.constant c)) (Operand.non_expression v) =
      Expr.equal (Expr.expected (Val.constant c)) (Expr.value v) := by
    unfold equal
    rw [hto]
    rfl
  have hpass : (equal (Operand.non_expression (Val.constant c))
        (Operand.non_expression v)).all_conditions_true = true ↔
      builtin_eq (Val.int c.T c.value_) v = Val.bool true := by
    have hc : (Val.constant c).unwrap = Val.int c.T c.value_ := rfl
    rw [heq]
    simp only [Expr.all_conditions_true, Expr.is_expected_only, Expr.own_condition,
      Expr.evaluate, operator_eq, hc, hu, Bool.true_and, Bool.and_false, Bool.false_or]
    cases hb : builtin_eq (Val.int c.T c.value_) v with
    | bool r => simp
    | int T n => cases v <;> simp [builtin_eq] at hb
    | string_view s => cases v <;> simp [builtin_eq] at hb
    | constant d => cases v <;> simp [builtin_eq] at hb
    | tribool t => cases v <;> simp [builtin_eq] at hb
  refine ⟨rfl, hto, rfl, heq, ?_, hpass, ?_, ?_, ?_⟩
  · rw [heq]
    rfl
  · intro n hn hc hr
    rw [hpass]
    subst hn
    have h1 := static_cast_promote_of_in_range c.T c.value_ (by simpa [Val.in_range] using hc)
    have h2 := static_cast_promote_of_in_range c.T n hr
    simp [builtin_eq, int_eq, h1, h2]
  · intro T n hn
    rw [hpass]
    subst hn
    simp [builtin_eq, int_eq]
  · intro T n hn hc hr hcase
    rw [hpass]
    subst hn
    have hc2 : (Val.int c.T c.value_).in_range = true := by simpa [Val.in_range] using hc
    have h12 : static_cast (IntTy.common c.T T) c.value_ = c.value_ ∧
        static_cast (IntTy.common c.T T) n = n := by
      rcases hcase with ⟨h0, h1⟩ | hs
      · exact ⟨(static_cast_common_of_nonneg c.T T c.value_ hc2 h0).1,
          (static_cast_common_of_nonneg T c.T n hr h1).2⟩
      · exact ⟨(static_cast_common_of_signed c.T T c.value_ hc2).1 hs,
          (static_cast_common_of_signed T c.T n hr).2 hs⟩
    simp [builtin_eq, int_eq, h12.1, h12.2]

/-- C7 at the calls of `main`: `equal(3_i, 3)` passes, `equal(-3_i, 3)`
fails; both have operands of the type `int`. -/
theorem C7_promotion_witness :
    literal_i 3 = some ⟨IntTy.int, 3⟩
      ∧ (Val.int IntTy.int 3).is_constant = false
      ∧ (equal (Operand.non_expression (Val.constant ⟨IntTy.int, 3⟩))
          (Operand.non_expression (Val.int IntTy.int 3))).all_conditions_true = true
      ∧ (arithmetic_constant.operator_minus ⟨IntTy.int, 3⟩ = ⟨IntTy.int, -3⟩)
      ∧ (equal (Operand.non_expression
            (Val.constant (arithmetic_constant.operator_minus ⟨IntTy.int, 3⟩)))
          (Operand.non_expression (Val.int IntTy.int 3))).all_conditions_true = false :=
  ⟨by decide, by decide,
    (C7_promotion ⟨IntTy.int, 3⟩ (Val.int IntTy.int 3) (Expr.value (Val.int IntTy.int 3))
      (by decide)).2.2.2.2.2.1.mpr (by decide),
    by decide,
    by
      have h := (C7_promotion (arithmetic_constant.operator_minus ⟨IntTy.int, 3⟩)
        (Val.int IntTy.int 3) (Expr.value (Val.int IntTy.int 3)) (by decide)).2.2.2.2.2.1
      cases hp : (equal (Operand.non_expression
            (Val.constant (arithmetic_constant.operator_minus ⟨IntTy.int, 3⟩)))
          (Operand.non_expression (Val.int IntTy.int 3))).all_conditions_true with
      | false => rfl
      | true => exact absurd (h.mp hp) (by decide)⟩

/-! ## C8, C9: two reports of `expect` -/

/-- C8: `expect(Equal(Value(3), 3))` on a stream with the default flags
passes and appends exactly one line: the pass token, `"pass"`, reset, `": "`,
`"("`, the coloured `3`, the coloured `" == "`, the coloured `3`, `")"` and a
newline, every coloured token in the pass colour. -/
theorem C8_expect_value_3 (text : String) :
    (equal (Operand.expression (Expr.value (Val.int IntTy.int 3)))
        (Operand.non_expression (Val.int IntTy.int 3))).all_conditions_true = true
      ∧ expect (equal (Operand.expression (Expr.value (Val.int IntTy.int 3)))
          (Operand.non_expression (Val.int IntTy.int 3))) ⟨text, default_flags⟩ =
        Except.ok
          ⟨text ++
            (format.pass ++ "pass" ++ format.reset ++ ": " ++
              "(" ++ format.pass ++ "3" ++ format.reset ++
                format.pass ++ " == " ++ format.reset ++
                format.pass ++ "3" ++ format.reset ++ ")" ++ "\n"),
            default_flags⟩ := by
  refine ⟨by decide, ?_⟩
  rw [expect_eq _ _ (by decide)]
  dsimp only
  refine congrArg
    (fun s => (Except.ok (ostream.mk (text ++ s) default_flags) : Except String ostream)) ?_
  rfl

/-- C9: `expect(Equal(Expected(1), Value(2)))` on a stream with the default
flags fails and appends exactly four lines: the summary line, then after six
spaces each the rendering with results, with types, and with both. -/
theorem C9_expect_expected_1_value_2 (text : String) :
    (operators.operator_eq (Expr.expected (Val.int IntTy.int 1))
        (Expr.value (Val.int IntTy.int 2))).all_conditions_true = false
      ∧ expect (operators.operator_eq (Expr.expected (Val.int IntTy.int 1))
          (Expr.value (Val.int IntTy.int 2))) ⟨text, default_flags⟩ =
        Except.ok
          ⟨text ++
            (format.fail ++ "fail" ++ format.reset ++ ": (" ++
                format.ref ++ "1" ++ format.reset ++
                format.fail ++ " == " ++ format.reset ++
                format.fail ++ "2" ++ format.reset ++ ")" ++ "\n" ++
              "      " ++ "(" ++
                format.ref ++ "1" ++ format.reset ++
                format.fail ++ " == " ++ format.reset ++
                format.fail ++ "2" ++ format.reset ++
                " => " ++ format.fail ++ "false" ++ format.reset ++ ")" ++ "\n" ++
              "      " ++ "(<int>(" ++
                format.ref ++ "1" ++ format.reset ++ ")" ++
                format.fail ++ " == " ++ format.reset ++
                "<int>(" ++ format.fail ++ "2" ++ format.reset ++ "))" ++ "\n" ++
              "      " ++ "(<int>(" ++
                format.ref ++ "1" ++ format.reset ++ ")" ++
                format.fail ++ " == " ++ format.reset ++
                "<int>(" ++ format.fail ++ "2" ++ format.reset ++
                ") => <bool>(" ++ format.fail ++ "false" ++ format.reset ++ "))" ++ "\n"),
            default_flags⟩ := by
  refine ⟨by decide, ?_⟩
  rw [expect_eq _ _ (by decide)]
  dsimp only
  refine congrArg
    (fun s => (Except.ok (ostream.mk (text ++ s) default_flags) : Except String ostream)) ?_
  rfl

/-! ## C10: a comparison compared with a `bool` under test -/

/-- A well-formed comparison has type `bool` or `tribool`. -/
theorem eq_type_cases (x y s : Ty) (h : eq_type x y = some s) : s = Ty.bool ∨ s = Ty.tribool := by
  cases x <;> cases y <;> simp [eq_type, Ty.unwrap] at h <;> simp [← h]

/-- C10, as stated, fails: both operands of
`Equal(Equal(a,b), Value(false))` are `Value` leaves, of the `tribool` value
`true`; the tree is well-formed and it passes, because neither comparison
yields a `bool`. -/
theorem C10_counterexample :
    (operators.operator_eq
        (Expr.equal (Expr.value (Val.tribool tribool.true_value))
          (Expr.value (Val.tribool tribool.true_value)))
        (Expr.value (Val.bool false))).well_formed = true
      ∧ ¬ ((operators.operator_eq
        (Expr.equal (Expr.value (Val.tribool tribool.true_value))
          (Expr.value (Val.tribool tribool.true_value)))
        (Expr.value (Val.bool false))).all_conditions_true = false) := by
  decide

/-- C10 (amended): for all `a` and `b` such that `Equal(a,b)` is not
expected-only and its comparison yields a `bool`,
`Equal(Equal(a,b), Value(false))` does not pass; for every `c`,
`Equal(Equal(a,b), Value(c))` passes if and only if the conditions of `a` and
`b` hold, `a == b` is true and `c` is true; for leaves `a` and `b` that is:
if and only if `a == b` is true and `c` is true. -/
theorem C10_chained (a b : Expr) (c : Bool)
    (hv : (Expr.equal a b).is_expected_only = false)
    (ht : (Expr.equal a b).type = some Ty.bool) :
    (operators.operator_eq (Expr.equal a b)
        (Expr.value (Val.bool false))).all_conditions_true = false
      ∧ ((operators.operator_eq (Expr.equal a b)
            (Expr.value (Val.bool c))).all_conditions_true = true ↔
          (a.all_conditions_true = true ∧ b.all_conditions_true = true ∧
            operator_eq a.evaluate b.evaluate = Val.bool true ∧ c = true))
      ∧ (a.is_leaf = true → b.is_leaf = true →
          ((operators.operator_eq (Expr.equal a b)
              (Expr.value (Val.bool c))).all_conditions_true = true ↔
            (operator_eq a.evaluate b.evaluate = Val.bool true ∧ c = true))) := by
  obtain ⟨r, hr⟩ : ∃ r, operator_eq a.evaluate b.evaluate = Val.bool r :=
    (Val.type_eq_bool _).1 (Expr.evaluate_type _ Ty.bool ht)
  have hact : ∀ d : Bool,
      (operators.operator_eq (Expr.equal a b) (Expr.value (Val.bool d))).all_conditions_true =
        (a.all_conditions_true && b.all_conditions_true && r && (r == d)) := by
    intro d
    have hv2 : (a.is_expected_only && b.is_expected_only) = false := hv
    have hbb : operator_eq (Val.bool r) (Val.bool d) = Val.bool (r == d) := rfl
    simp only [operators.operator_eq, equal, to_expression, Expr.all_conditions_true,
      Expr.is_expected_only, Expr.own_condition, Expr.evaluate, hr, hv2, hbb,
      Bool.false_or, Bool.and_true, Bool.and_false, Bool.true_and, Bool.false_and]
  have hiff : (operators.operator_eq (Expr.equal a b)
        (Expr.value (Val.bool c))).all_conditions_true = true ↔
      (a.all_conditions_true = true ∧ b.all_conditions_true = true ∧
        operator_eq a.evaluate b.evaluate = Val.bool true ∧ c = true) := by
    rw [hact c, hr]
    cases r <;> cases c <;> simp
  refine ⟨?_, hiff, ?_⟩
  · rw [hact false]
    cases r <;> simp
  · intro ha hb
    rw [hiff]
    have ha2 : a.all_conditions_true = true := by
      cases a with
      | value v => rfl
      | expected v => rfl
      | equal x y => simp [Expr.is_leaf] at ha
    have hb2 : b.all_conditions_true = true := by
      cases b with
      | value v => rfl
      | expected v => rfl
      | equal x y => simp [Expr.is_leaf] at hb
    simp [ha2, hb2]

/-- C10 at the calls of `main`: `equal("tested", "tested") == value(false)`,
`expected("reference") == value("tested") == value(false)` and
`expected("reference") == value("tested") == value(true)` all fail. -/
theorem C10_chained_witness :
    (operators.operator_eq
        (equal (Operand.non_expression (Val.string_view "tested"))
          (Operand.non_expression (Val.string_view "tested")))
        (Expr.value (Val.bool false))).all_conditions_true = false
      ∧ (operators.operator_eq
        (operators.operator_eq (Expr.expected (Val.string_view "reference"))
          (Expr.value (Val.string_view "tested")))
        (Expr.value (Val.bool false))).all_conditions_true = false
      ∧ (operators.operator_eq
        (operators.operator_eq (Expr.expected (Val.string_view "reference"))
          (Expr.value (Val.string_view "tested")))
        (Expr.value (Val.bool true))).all_conditions_true = false :=
  ⟨(C10_chained (Expr.value (Val.string_view "tested")) (Expr.value (Val.string_view "tested"))
      false (by decide) (by decide)).1,
    (C10_chained (Expr.expected (Val.string_view "reference"))
      (Expr.value (Val.string_view "tested")) false (by decide) (by decide)).1,
    by decide⟩

/-! ## The shape of what the printer writes -/

/-- What `basic_value<T>::print` writes: the opening of the type annotation
when types are asked for, the colour, the value, the reset token, the closing
of the annotation. -/
theorem basic_value.printed_shape (v : Val) (flags : Nat) (color : String) (pr pt : Bool) :
    basic_value.printed v flags color pr pt =
      (if pt then "<" ++ basic_value.type_name v ++ ">(" else "") ++ color ++
        basic_value.value_text v flags ++ format.reset ++ (if pt then ")" else "") := by
  cases pt <;> cases v <;>
    simp only [basic_value.printed, basic_value.print, basic_value.type_name,
      basic_value.value_text, ostream.put, ostream.insert_appends, if_true, if_false,
      Bool.false_eq_true, String.append_assoc, String.empty_append, String.append_empty]

/-- What `value::print` writes. -/
theorem Expr.printed_value (v : Val) (flags : Nat) (pass pr pt : Bool) :
    (Expr.value v).printed flags pass pr pt =
      basic_value.printed v flags (format.color pass) pr pt := rfl

/-- What `expected::print` writes. -/
theorem Expr.printed_expected (v : Val) (flags : Nat) (pass pr pt : Bool) :
    (Expr.expected v).printed flags pass pr pt =
      basic_value.printed v flags format.ref pr pt := rfl

/-- What `equal::print` writes: `"("`, the left child, the coloured operator,
the right child, the result part when results are asked for, `")"`; the
children are printed with the same flags and with `sub_pass` as their hint. -/
theorem Expr.printed_equal (a b : Expr) (flags : Nat) (pass pr pt : Bool) :
    (Expr.equal a b).printed flags pass pr pt =
      "(" ++ a.printed flags ((Expr.equal a b).sub_pass pass) pr pt ++
        (if (Expr.equal a b).sub_pass pass then format.pass else format.fail) ++ " == " ++
        format.reset ++
        b.printed flags ((Expr.equal a b).sub_pass pass) pr pt ++
        (if pr then
          " => " ++ basic_value.printed (Expr.equal a b).evaluate flags
            (if (Expr.equal a b).is_expected_only then format.ref
              else format.color ((Expr.equal a b).sub_pass pass)) pr pt
          else "") ++ ")" := by
  rw [Expr.printed]
  cases pr <;> cases hieo : (Expr.equal a b).is_expected_only <;>
    simp only [Expr.print, Expr.sub_pass, ostream.put, Expr.print_appends,
      basic_value.print_leaf_appends, hieo, if_true, if_false, Bool.false_eq_true,
      String.append_assoc, String.empty_append, String.append_empty]

/-! ## C11: leaf colouring -/

/-- C11, as stated, fails: inside the `equal` node of the two `tribool`
values `false` and `true` under test, no hint `h` fixed by the node alone
explains the colour of the leaves for both pass hints the node can be given;
the leaves take the colour of the hint from outside. -/
theorem C11_counterexample :
    ¬ ∃ h : Bool, ∀ pass : Bool,
      (Expr.equal (Expr.value (Val.tribool tribool.false_value))
          (Expr.value (Val.tribool tribool.true_value))).printed default_flags pass false false =
        "(" ++
          (Expr.value (Val.tribool tribool.false_value)).printed default_flags h false false ++
          (if (Expr.equal (Expr.value (Val.tribool tribool.false_value))
              (Expr.value (Val.tribool tribool.true_value))).sub_pass pass
            then format.pass else format.fail) ++ " == " ++ format.reset ++
          (Expr.value (Val.tribool tribool.true_value)).printed default_flags h false false ++
          ")" := by
  rintro ⟨h, H⟩
  cases h
  · exact absurd (H true) (by decide)
  · exact absurd (H false) (by decide)

/-- C11 (amended): a `Value` leaf given the pass hint `h` is written as
`color(h)`, the value, reset (inside the type annotation when types are asked
for), with `color(true)` the pass token and `color(false)` the fail token; an
`Expected` leaf is written as the reference token, the value, reset, the same
for both hints.  Inside an `Equal` node whose comparison yields the bool `r`
the children are given the hint `r`, whatever hint the node was given; inside
an `Equal` node whose comparison does not yield a bool the children are given
the hint the node was given. -/
theorem C11_leaf_colouring (a b : Expr) (v : Val) (flags : Nat) (h pr pt : Bool) :
    (Expr.value v).printed flags h pr pt =
        (if pt then "<" ++ basic_value.type_name v ++ ">(" else "") ++ format.color h ++
          basic_value.value_text v flags ++ format.reset ++ (if pt then ")" else "")
      ∧ format.color true = format.pass
      ∧ format.color false = format.fail
      ∧ (Expr.expected v).printed flags h pr pt =
        (if pt then "<" ++ basic_value.type_name v ++ ">(" else "") ++ format.ref ++
          basic_value.value_text v flags ++ format.reset ++ (if pt then ")" else "")
      ∧ (Expr.expected v).printed flags true pr pt = (Expr.expected v).printed flags false pr pt
      ∧ (∀ r : Bool, (Expr.equal a b).evaluate = Val.bool r →
          (Expr.equal a b).printed flags h pr pt =
            "(" ++ a.printed flags r pr pt ++
              (if r then format.pass else format.fail) ++ " == " ++ format.reset ++
              b.printed flags r pr pt ++
              (if pr then
                " => " ++ basic_value.printed (Expr.equal a b).evaluate flags
                  (if (Expr.equal a b).is_expected_only then format.ref else format.color r)
                  pr pt
                else "") ++ ")")
      ∧ ((∀ r : Bool, (Expr.equal a b).evaluate ≠ Val.bool r) →
          (Expr.equal a b).printed flags h pr pt =
            "(" ++ a.printed flags h pr pt ++
              (if h then format.pass else format.fail) ++ " == " ++ format.reset ++
              b.printed flags h pr pt ++
              (if pr then
                " => " ++ basic_value.printed (Expr.equal a b).evaluate flags
                  (if (Expr.equal a b).is_expected_only then format.ref else format.color h)
                  pr pt
                else "") ++ ")") := by
  refine ⟨?_, rfl, rfl, ?_, rfl, ?_, ?_⟩
  · rw [Expr.printed_value, basic_value.printed_shape]
  · rw [Expr.printed_expected, basic_value.printed_shape]
  · intro r hr
    have hs : (Expr.equal a b).sub_pass h = r := by simp [Expr.sub_pass, hr]
    rw [Expr.printed_equal, hs]
  · intro hne
    have hs : (Expr.equal a b).sub_pass h = h := by
      unfold Expr.sub_pass
      cases hv : (Expr.equal a b).evaluate with
      | bool r => exact absurd hv (hne r)
      | int T n => rfl
      | string_view s => rfl
      | constant c => rfl
      | tribool t => rfl
    rw [Expr.printed_equal, hs]

/-- C11 at `expected(1) == value(2)` printed with the hint `true`: the
`Value` leaf is in the fail colour of the node's own comparison, the `Expected`
leaf in the reference colour. -/
theorem C11_leaf_colouring_witness :
    (Expr.equal (Expr.expected (Val.int IntTy.int 1))
        (Expr.value (Val.int IntTy.int 2))).printed default_flags true false false =
      "(" ++ format.ref ++ "1" ++ format.reset ++
        format.fail ++ " == " ++ format.reset ++
        format.fail ++ "2" ++ format.reset ++ ")" :=
  ((C11_leaf_colouring (Expr.expected (Val.int IntTy.int 1)) (Expr.value (Val.int IntTy.int 2))
    (Val.int IntTy.int 0) default_flags true false false).2.2.2.2.2.1 false (by decide)).trans
    (by rfl)

/-! ## C12: the text of a leaf value -/

/-- The characters `std::quoted` writes between the quotes are those the
specification describes. -/
theorem quoted_eq_escaped (s : String) :
    quoted s = String.singleton (Char.ofNat 34) ++ escaped s ++ String.singleton (Char.ofNat 34) := by
  have h : ∀ l : List Char,
      l.foldr (fun c acc =>
          if c = Char.ofNat 34 ∨ c = Char.ofNat 92 then Char.ofNat 92 :: c :: acc else c :: acc) [] =
        l.flatMap (fun c =>
          if c = Char.ofNat 34 ∨ c = Char.ofNat 92 then [Char.ofNat 92, c] else [c]) := by
    intro l
    induction l with
    | nil => rfl
    | cons c cs ih =>
      simp only [List.foldr_cons, List.flatMap_cons, ih]
      split <;> rfl
  simp only [quoted, escaped, h]

/-- C12, as stated, fails: the typed constant `65_i8` is an integer leaf value,
and under the flags `expect` sets on a fresh stream its value text is not
the numeral `65` but the one character `A`, the character with the code 65. -/
theorem C12_counterexample :
    literal_i8 65 = some ⟨IntTy.schar, 65⟩
      ∧ ¬ (basic_value.value_text (Val.constant ⟨IntTy.schar, 65⟩)
          (default_flags ||| boolalpha) = toString (65 : Int))
      ∧ basic_value.value_text (Val.constant ⟨IntTy.schar, 65⟩)
          (default_flags ||| boolalpha) = "A" := by
  decide

/-- C12 (amended): the value text of a string-like leaf is a double quote, the
string with a backslash before every double quote and backslash, a double
quote; the value text of any other leaf is what stream insertion writes, with
no quotes added.  Under the flags `expect` sets on a fresh stream that is the
decimal numeral for an integer of a type wider than 8 bits; for every flag
word it is the one character with that code for an integer of an 8-bit type,
`true` or `false` for a `bool` under `boolalpha`, and what its stored value
gives for a typed constant. -/
theorem C12_value_text (s : String) (v : Val) (flags : Nat) (color : String) (pr : Bool) :
    basic_value.printed v flags color pr false =
        color ++ basic_value.value_text v flags ++ format.reset
      ∧ basic_value.value_text (Val.string_view s) flags =
        String.singleton (Char.ofNat 34) ++ escaped s ++ String.singleton (Char.ofNat 34)
      ∧ ((∀ t, v ≠ Val.string_view t) → basic_value.value_text v flags = v.inserted flags)
      ∧ (∀ (T : IntTy) (n : Int), T.bits ≠ 8 →
          basic_value.value_text (Val.int T n) (default_flags ||| boolalpha) = toString n)
      ∧ (∀ (T : IntTy) (n : Int), T.bits = 8 →
          basic_value.value_text (Val.int T n) flags =
            String.singleton (Char.ofNat (n % 256).toNat))
      ∧ (∀ b : Bool, flags.testBit 0 = true →
          basic_value.value_text (Val.bool b) flags = if b then "true" else "false")
      ∧ (∀ c : arithmetic_constant,
          basic_value.value_text (Val.constant c) flags =
            basic_value.value_text (Val.int c.T c.value_) flags)
      ∧ basic_value.value_text (Val.string_view "a\"b\\c") flags = "\"a\\\"b\\\\c\""
      ∧ basic_value.value_text (Val.int IntTy.int (-3)) (default_flags ||| boolalpha) = "-3"
      ∧ basic_value.value_text (Val.int IntTy.uchar 65) flags = "A" := by
  refine ⟨?_, ?_, ?_, ?_, ?_, ?_, ?_, by rfl, by rfl, by rfl⟩
  · rw [basic_value.printed_shape]
    simp only [Bool.false_eq_true, if_false, String.empty_append, String.append_empty]
  · exact quoted_eq_escaped s
  · intro hv
    cases v with
    | string_view t => exact absurd rfl (hv t)
    | bool b => rfl
    | int T n => rfl
    | constant c => rfl
    | tribool t => rfl
  · intro T n hT
    simp [basic_value.value_text, Val.inserted, ostream.insert, ostream.insert_int, ostream.put, hT]
  · intro T n hT
    simp [basic_value.value_text, Val.inserted, ostream.insert, ostream.insert_int, ostream.put, hT]
  · intro b hb
    simp [basic_value.value_text, Val.inserted, ostream.insert, ostream.put, hb]
  · intro c
    rfl

/-! ## C13: type annotation of a leaf -/

/-- C13: a leaf printed with types is `"<"`, the type name, `">("`, the same
leaf printed without types, `")"`, and asking for results changes nothing on
a leaf.  The type name of an `Expected` leaf promoted from a typed constant
of declared type `T` is the name of `T`, not of the constant wrapper; the name
of any other leaf is the name of its type.  The constant `3_i` prints as
`"<int>("`, reference token, `"3"`, reset, `")"`, and `equal(3_i, 3)` passes. -/
theorem C13_type_annotation (v : Val) (c : arithmetic_constant) (flags : Nat)
    (pass pr pt : Bool) :
    (Expr.value v).printed flags pass pr true =
        "<" ++ basic_value.type_name v ++ ">(" ++ (Expr.value v).printed flags pass pr false ++ ")"
      ∧ (Expr.expected v).printed flags pass pr true =
        "<" ++ basic_value.type_name v ++ ">(" ++ (Expr.expected v).printed flags pass pr false ++
          ")"
      ∧ (Expr.value v).printed flags pass true pt = (Expr.value v).printed flags pass false pt
      ∧ (Expr.expected v).printed flags pass true pt =
        (Expr.expected v).printed flags pass false pt
      ∧ to_expression (Operand.non_expression (Val.constant c)) = Expr.expected (Val.constant c)
      ∧ basic_value.type_name (Val.constant c) = type_name (Ty.int c.T)
      ∧ type_name (Ty.int c.T) ≠ type_name (Ty.constant c.T)
      ∧ ((∀ d, v ≠ Val.constant d) → basic_value.type_name v = type_name v.type)
      ∧ literal_i 3 = some ⟨IntTy.int, 3⟩
      ∧ (to_expression (Operand.non_expression (Val.constant ⟨IntTy.int, 3⟩))).printed
          flags pass pr true = "<int>(" ++ format.ref ++ "3" ++ format.reset ++ ")"
      ∧ (equal (Operand.non_expression (Val.constant ⟨IntTy.int, 3⟩))
          (Operand.non_expression (Val.int IntTy.int 3))).all_conditions_true = true := by
  refine ⟨?_, ?_, rfl, rfl, rfl, rfl, ?_, ?_, by decide, by rfl, by decide⟩
  · simp only [Expr.printed_value, basic_value.printed_shape, if_true, if_false,
      Bool.false_eq_true, String.append_assoc, String.empty_append, String.append_empty]
  · simp only [Expr.printed_expected, basic_value.printed_shape, if_true, if_false,
      Bool.false_eq_true, String.append_assoc, String.empty_append, String.append_empty]
  · have hT : ∀ T : IntTy, type_name (Ty.int T) ≠ type_name (Ty.constant T) := by
      intro T
      cases T <;> decide
    exact hT c.T
  · intro hv
    cases v with
    | constant d => exact absurd rfl (hv d)
    | bool b => rfl
    | int T n => rfl
    | string_view t => rfl
    | tribool t => rfl

/-! ## C14: the rendering of an `equal` node -/

/-- The hint `sub_pass` of a node whose comparison yields the bool `r` is
`r`. -/
theorem Expr.sub_pass_of_bool (e : Expr) (pass r : Bool) (h : e.evaluate = Val.bool r) :
    e.sub_pass pass = r := by
  simp [Expr.sub_pass, h]

/-- The hint `sub_pass` of a node whose comparison does not yield a bool is
the hint the node was given. -/
theorem Expr.sub_pass_of_not_bool (e : Expr) (pass : Bool)
    (h : ∀ r : Bool, e.evaluate ≠ Val.bool r) : e.sub_pass pass = pass := by
  unfold Expr.sub_pass
  cases hv : e.evaluate with
  | bool r => exact absurd hv (h r)
  | int T n => rfl
  | string_view s => rfl
  | constant c => rfl
  | tribool t => rfl

/-- C14, as stated, fails: the `equal` node of the two `tribool` values
`false` and `true` under test, printed with results and types, does not end
in `" => "` and a boolean outcome as a `Value` leaf annotated `<bool>(...)`,
for neither boolean. -/
theorem C14_counterexample :
    ¬ ∃ r : Bool,
      (Expr.equal (Expr.value (Val.tribool tribool.false_value))
          (Expr.value (Val.tribool tribool.true_value))).printed default_flags true true true =
        "(" ++
          (Expr.value (Val.tribool tribool.false_value)).printed default_flags true true true ++
          format.pass ++ " == " ++ format.reset ++
          (Expr.value (Val.tribool tribool.true_value)).printed default_flags true true true ++
          " => " ++ (Expr.value (Val.bool r)).printed default_flags r true true ++ ")" := by
  rintro ⟨r, H⟩
  cases r
  · exact absurd H (by decide)
  · exact absurd H (by decide)

/-- C14 (amended): for every `Equal` node and all flag values the rendering
is `"("`, the rendering of `A`, the coloured `" == "` token, reset, the
rendering of `B`, the result part, `")"`, both children rendered with the
flags of the node and with the hint `sub_pass`.  The result part is empty
without `show_result`; with it, it is `" => "` and the node's evaluated
outcome rendered as a leaf given the hint `sub_pass`, an `Expected` leaf when
the node is expected-only and a `Value` leaf otherwise.  When the outcome is
the bool `r`, `sub_pass` is `r` and the leaf is annotated `<bool>(...)` under
`show_type`; when the outcome is no bool, `sub_pass` is the hint the node was
given and the annotation names the type of the outcome. -/
theorem C14_equal_rendering (a b : Expr) (flags : Nat) (pass pr pt : Bool) :
    (Expr.equal a b).printed flags pass pr pt =
        "(" ++ a.printed flags ((Expr.equal a b).sub_pass pass) pr pt ++
          format.color ((Expr.equal a b).sub_pass pass) ++ " == " ++ format.reset ++
          b.printed flags ((Expr.equal a b).sub_pass pass) pr pt ++
          (if pr then
            " => " ++
              (if (Expr.equal a b).is_expected_only then
                (Expr.expected (Expr.equal a b).evaluate).printed flags
                  ((Expr.equal a b).sub_pass pass) pr pt
              else
                (Expr.value (Expr.equal a b).evaluate).printed flags
                  ((Expr.equal a b).sub_pass pass) pr pt)
            else "") ++ ")"
      ∧ (∀ r : Bool, (Expr.equal a b).evaluate = Val.bool r →
          (Expr.equal a b).sub_pass pass = r
          ∧ (Expr.value (Val.bool r)).printed flags r pr pt =
              (if pt then "<bool>(" else "") ++ format.color r ++
                basic_value.value_text (Val.bool r) flags ++ format.reset ++
                (if pt then ")" else "")
          ∧ (Expr.expected (Val.bool r)).printed flags r pr pt =
              (if pt then "<bool>(" else "") ++ format.ref ++
                basic_value.value_text (Val.bool r) flags ++ format.reset ++
                (if pt then ")" else ""))
      ∧ ((∀ r : Bool, (Expr.equal a b).evaluate ≠ Val.bool r) →
          (Expr.equal a b).sub_pass pass = pass
          ∧ (Expr.value (Expr.equal a b).evaluate).printed flags pass pr pt =
              (if pt then "<" ++ basic_value.type_name (Expr.equal a b).evaluate ++ ">(" else "") ++
                format.color pass ++
                basic_value.value_text (Expr.equal a b).evaluate flags ++ format.reset ++
                (if pt then ")" else "")) := by
  refine ⟨?_, ?_, ?_⟩
  · rw [Expr.printed_equal]
    cases hs : (Expr.equal a b).sub_pass pass <;>
      cases hieo : (Expr.equal a b).is_expected_only <;>
      simp only [Expr.printed_value, Expr.printed_expected, format.color, if_true, if_false,
        Bool.false_eq_true]
  · intro r hr
    refine ⟨Expr.sub_pass_of_bool _ pass r hr, ?_, ?_⟩
    · rw [Expr.printed_value, basic_value.printed_shape]
      cases pt <;> rfl
    · rw [Expr.printed_expected, basic_value.printed_shape]
      cases pt <;> rfl
  · intro hne
    refine ⟨Expr.sub_pass_of_not_bool _ pass hne, ?_⟩
    rw [Expr.printed_value, basic_value.printed_shape]

/-- C14 at `expected(1) == value(2)` printed with results and types under
`boolalpha`. -/
theorem C14_equal_rendering_witness :
    (Expr.equal (Expr.expected (Val.int IntTy.int 1))
        (Expr.value (Val.int IntTy.int 2))).printed (default_flags ||| boolalpha)
          true true true =
      "(" ++ "<int>(" ++ format.ref ++ "1" ++ format.reset ++ ")" ++
        format.fail ++ " == " ++ format.reset ++
        "<int>(" ++ format.fail ++ "2" ++ format.reset ++ ")" ++
        " => " ++ "<bool>(" ++ format.fail ++ "false" ++ format.reset ++ ")" ++ ")" :=
  ((C14_equal_rendering (Expr.expected (Val.int IntTy.int 1)) (Expr.value (Val.int IntTy.int 2))
    (default_flags ||| boolalpha) true true true).1).trans (by rfl)

/-! ## C15: the bare rendering inside the full rendering -/

/-- Every text is a subsequence of itself. -/
theorem is_subsequence_refl (s : String) : is_subsequence s s :=
  List.Sublist.refl _

/-- The empty text is a subsequence of every text. -/
theorem is_subsequence_empty (t : String) : is_subsequence "" t :=
  List.nil_sublist _

/-- Subsequences may be joined. -/
theorem is_subsequence_append {s₁ t₁ s₂ t₂ : String} (h₁ : is_subsequence s₁ t₁)
    (h₂ : is_subsequence s₂ t₂) : is_subsequence (s₁ ++ s₂) (t₁ ++ t₂) := by
  unfold is_subsequence
  rw [String.data_append, String.data_append]
  exact List.Sublist.append h₁ h₂

/-- A leaf printed bare is a subsequence of the leaf printed with results and
types. -/
theorem basic_value.printed_subsequence (v : Val) (flags : Nat) (color : String) :
    is_subsequence (basic_value.printed v flags color false false)
      (basic_value.printed v flags color true true) := by
  rw [basic_value.printed_shape, basic_value.printed_shape]
  simp only [if_true, if_false, Bool.false_eq_true]
  exact is_subsequence_append
    (is_subsequence_append
      (is_subsequence_append
        (is_subsequence_append (is_subsequence_empty _) (is_subsequence_refl _))
        (is_subsequence_refl _))
      (is_subsequence_refl _))
    (is_subsequence_empty _)

/-- C15: for every expression and every pass hint the rendering without types
and results is a subsequence of the rendering with both: it is obtained from
it by deleting characters only. -/
theorem C15_bare_in_full (e : Expr) (flags : Nat) (pass : Bool) :
    is_subsequence (e.printed flags pass false false) (e.printed flags pass true true) := by
  induction e generalizing pass with
  | value v =>
    rw [Expr.printed_value, Expr.printed_value]
    exact basic_value.printed_subsequence v flags _
  | expected v =>
    rw [Expr.printed_expected, Expr.printed_expected]
    exact basic_value.printed_subsequence v flags _
  | equal a b iha ihb =>
    rw [Expr.printed_equal, Expr.printed_equal]
    simp only [if_true, if_false, Bool.false_eq_true]
    exact is_subsequence_append
      (is_subsequence_append
        (is_subsequence_append
          (is_subsequence_append
            (is_subsequence_append
              (is_subsequence_append
                (is_subsequence_append (is_subsequence_refl _) (iha _))
                (is_subsequence_refl _))
              (is_subsequence_refl _))
            (is_subsequence_refl _))
          (ihb _))
        (is_subsequence_empty _))
      (is_subsequence_refl _)

/-! ## C16: the colour of the operator token -/

/-- C16, as stated, fails: in `expected("reference") == expected("tested")`,
the inner node of the assertion of `main` line 505, both children are
expected-only, so the check of `all_conditions_true` succeeds, yet the
`" == "` token is not in the colour of that check: it is in the fail
colour. -/
theorem C16_counterexample :
    ¬ ((Expr.equal (Expr.expected (Val.string_view "reference"))
          (Expr.expected (Val.string_view "tested"))).printed default_flags true false false =
        "(" ++
          (Expr.expected (Val.string_view "reference")).printed default_flags
            ((Expr.equal (Expr.expected (Val.string_view "reference"))
              (Expr.expected (Val.string_view "tested"))).sub_pass true) false false ++
          format.color
            ((Expr.equal (Expr.expected (Val.string_view "reference"))
                (Expr.expected (Val.string_view "tested"))).is_expected_only ||
              (Expr.equal (Expr.expected (Val.string_view "reference"))
                (Expr.expected (Val.string_view "tested"))).own_condition) ++
          " == " ++ format.reset ++
          (Expr.expected (Val.string_view "tested")).printed default_flags
            ((Expr.equal (Expr.expected (Val.string_view "reference"))
              (Expr.expected (Val.string_view "tested"))).sub_pass true) false false ++
          ")") := by
  decide

/-- C16 (amended): for every `Equal` node the `" == "` token is in the colour
of `sub_pass`.  When the comparison yields a bool, `sub_pass` is that bool:
the token is in the pass colour exactly when the children's evaluated values
compare equal, and it agrees with the check of `all_conditions_true` when the
node is not expected-only, and on an expected-only node exactly when the
values compare equal.  When the comparison yields no bool, `sub_pass` is the
hint the node was given. -/
theorem C16_operator_colour (a b : Expr) (flags : Nat) (pass pr pt : Bool) :
    (Expr.equal a b).printed flags pass pr pt =
        "(" ++ a.printed flags ((Expr.equal a b).sub_pass pass) pr pt ++
          format.color ((Expr.equal a b).sub_pass pass) ++ " == " ++ format.reset ++
          b.printed flags ((Expr.equal a b).sub_pass pass) pr pt ++
          (if pr then
            " => " ++ basic_value.printed (Expr.equal a b).evaluate flags
              (if (Expr.equal a b).is_expected_only then format.ref
                else format.color ((Expr.equal a b).sub_pass pass)) pr pt
            else "") ++ ")"
      ∧ (∀ r : Bool, operator_eq a.evaluate b.evaluate = Val.bool r →
          ((Expr.equal a b).sub_pass pass = true ↔
            operator_eq a.evaluate b.evaluate = Val.bool true)
          ∧ ((Expr.equal a b).is_expected_only = false →
              (Expr.equal a b).sub_pass pass =
                ((Expr.equal a b).is_expected_only || (Expr.equal a b).own_condition))
          ∧ ((Expr.equal a b).is_expected_only = true →
              ((Expr.equal a b).sub_pass pass =
                  ((Expr.equal a b).is_expected_only || (Expr.equal a b).own_condition) ↔
                operator_eq a.evaluate b.evaluate = Val.bool true)))
      ∧ ((∀ r : Bool, operator_eq a.evaluate b.evaluate ≠ Val.bool r) →
          (Expr.equal a b).sub_pass pass = pass) := by
  refine ⟨?_, ?_, ?_⟩
  · rw [Expr.printed_equal]
    cases (Expr.equal a b).sub_pass pass <;> rfl
  · intro r hr
    have he : (Expr.equal a b).evaluate = Val.bool r := hr
    have hs := Expr.sub_pass_of_bool _ pass r he
    have ho : (Expr.equal a b).own_condition = r := by simp [Expr.own_condition, he]
    refine ⟨?_, ?_, ?_⟩
    · rw [hs, hr]
      cases r <;> simp
    · intro hi
      rw [hs, ho, hi]
      rfl
    · intro hi
      rw [hs, ho, hi, hr]
      cases r <;> simp
  · intro hne
    exact Expr.sub_pass_of_not_bool _ pass hne

/-- C16 at the assertion of `main` line 505,
`expected("reference") == expected("tested") == value(false)`: it passes, and
its one line shows the inner `" == "` in the fail colour and the outer in the
pass colour. -/
theorem C16_operator_colour_witness :
    expect (operators.operator_eq
        (operators.operator_eq (Expr.expected (Val.string_view "reference"))
          (Expr.expected (Val.string_view "tested")))
        (Expr.value (Val.bool false))) ⟨"", default_flags⟩ =
      Except.ok
        ⟨format.pass ++ "pass" ++ format.reset ++ ": " ++
            "(" ++ "(" ++ format.ref ++ "\"reference\"" ++ format.reset ++
              format.fail ++ " == " ++ format.reset ++
              format.ref ++ "\"tested\"" ++ format.reset ++ ")" ++
              format.pass ++ " == " ++ format.reset ++
              format.pass ++ "false" ++ format.reset ++ ")" ++ "\n",
          default_flags⟩
      ∧ (Expr.equal (Expr.expected (Val.string_view "reference"))
          (Expr.expected (Val.string_view "tested"))).sub_pass true = false :=
  ⟨by rfl,
    by
      have h := ((C16_operator_colour (Expr.expected (Val.string_view "reference"))
        (Expr.expected (Val.string_view "tested")) default_flags true false false).2.1 false
        (by decide)).1
      cases hs : (Expr.equal (Expr.expected (Val.string_view "reference"))
          (Expr.expected (Val.string_view "tested"))).sub_pass true with
      | false => rfl
      | true => exact absurd (h.mp hs) (by decide)⟩

/-! ## C17: which nodes decide the result -/

/-- The nodes of a tree whose comparisons are boolean: the root compares to a
bool, and the comparisons of both children are boolean. -/
theorem Expr.comparisons_boolean_equal (a b : Expr)
    (h : (Expr.equal a b).comparisons_boolean = true) :
    (∃ r, (Expr.equal a b).evaluate = Val.bool r) ∧ a.comparisons_boolean = true ∧
      b.comparisons_boolean = true := by
  simp only [Expr.comparisons_boolean, Expr.nodes, List.all_cons, List.all_append,
    Bool.and_eq_true, Expr.is_leaf, Bool.false_or, decide_eq_true_eq] at h
  obtain ⟨ht, ha, hb⟩ := h
  refine ⟨(Val.type_eq_bool _).1 (Expr.evaluate_type _ Ty.bool ht), ?_, ?_⟩
  · simpa [Expr.comparisons_boolean] using ha
  · simpa [Expr.comparisons_boolean] using hb

/-- An expected-only tree passes, whatever its comparisons yield. -/
theorem Expr.all_conditions_true_of_expected_only (e : Expr)
    (h : e.is_expected_only = true) : e.all_conditions_true = true := by
  induction e with
  | value v => rfl
  | expected v => rfl
  | equal a b iha ihb =>
    have h2 : a.is_expected_only = true ∧ b.is_expected_only = true := by
      simpa [Expr.is_expected_only] using h
    simp [Expr.all_conditions_true, iha h2.1, ihb h2.2, h]

/-- C17: for every expression tree whose comparisons are boolean,
`all_conditions_true()` is true if and only if every `Equal` node of the tree,
the root included, that is not expected-only evaluates to true; an
expected-only node passes whatever it evaluates to. -/
theorem C17_all_conditions_true_iff (e : Expr) (h : e.comparisons_boolean = true) :
    (e.all_conditions_true = true ↔
        ∀ n ∈ e.nodes, n.is_leaf = false → n.is_expected_only = false →
          n.evaluate = Val.bool true)
      ∧ (∀ n ∈ e.nodes, n.is_expected_only = true → n.all_conditions_true = true) := by
  refine ⟨?_, fun n _ hn => Expr.all_conditions_true_of_expected_only n hn⟩
  induction e with
  | value v => simp [Expr.all_conditions_true, Expr.nodes, Expr.is_leaf]
  | expected v => simp [Expr.all_conditions_true, Expr.nodes, Expr.is_leaf]
  | equal a b iha ihb =>
    obtain ⟨⟨r, hr⟩, ha, hb⟩ := Expr.comparisons_boolean_equal a b h
    have ho : (Expr.equal a b).own_condition = r := by simp [Expr.own_condition, hr]
    have hact : (Expr.equal a b).all_conditions_true =
        (a.all_conditions_true && b.all_conditions_true &&
          ((Expr.equal a b).is_expected_only || r)) := by
      rw [← ho]
      rfl
    rw [hact]
    constructor
    · intro hall
      simp only [Bool.and_eq_true, Bool.or_eq_true] at hall
      obtain ⟨⟨h1, h2⟩, h3⟩ := hall
      intro n hn hleaf hieo
      simp only [Expr.nodes, List.mem_cons, List.mem_append] at hn
      rcases hn with hn | hn | hn
      · subst hn
        rcases h3 with h3 | h3
        · rw [h3] at hieo
          cases hieo
        · rw [hr, h3]
      · exact (iha ha).1 h1 n hn hleaf hieo
      · exact (ihb hb).1 h2 n hn hleaf hieo
    · intro hn
      have h1 : a.all_conditions_true = true :=
        (iha ha).2 (fun n hm => hn n (by simp [Expr.nodes, hm]))
      have h2 : b.all_conditions_true = true :=
        (ihb hb).2 (fun n hm => hn n (by simp [Expr.nodes, hm]))
      have h3 : ((Expr.equal a b).is_expected_only || r) = true := by
        cases hieo : (Expr.equal a b).is_expected_only with
        | true => rfl
        | false =>
          have := hn (Expr.equal a b) (by simp [Expr.nodes]) rfl hieo
          rw [hr] at this
          simpa using this
      simp [h1, h2, h3]

/-- C17 at the assertion of `main` line 505: its comparisons are boolean and
it passes, although the inner comparison of the two reference values is
false. -/
theorem C17_all_conditions_true_iff_witness :
    (operators.operator_eq
        (operators.operator_eq (Expr.expected (Val.string_view "reference"))
          (Expr.expected (Val.string_view "tested")))
        (Expr.value (Val.bool false))).comparisons_boolean = true
      ∧ (operators.operator_eq
        (operators.operator_eq (Expr.expected (Val.string_view "reference"))
          (Expr.expected (Val.string_view "tested")))
        (Expr.value (Val.bool false))).all_conditions_true = true
      ∧ (operators.operator_eq (Expr.expected (Val.string_view "reference"))
          (Expr.expected (Val.string_view "tested"))).evaluate = Val.bool false :=
  ⟨by decide,
    (C17_all_conditions_true_iff
      (operators.operator_eq
        (operators.operator_eq (Expr.expected (Val.string_view "reference"))
          (Expr.expected (Val.string_view "tested")))
        (Expr.value (Val.bool false))) (by decide)).1.mpr (by decide),
    by decide⟩

/-! ## C18: the stream flags around `expect` -/

/-- C18: for every accepted expression and every state of the stream,
`expect` returns the stream with the flag word it had before the call,
whether the expression passes or fails; while it prints, the `boolalpha` bit
is set, whatever the word was, and `print` leaves the flags alone. -/
theorem C18_flags_restored (e : Expr) (cout : ostream) (h : e.is_expected_only = false) :
    (∃ os, expect e cout = Except.ok os ∧ os.flags = cout.flags)
      ∧ cout.set_boolalpha.flags.testBit 0 = true
      ∧ (∀ (os : ostream) (pass pr pt : Bool), (e.print os pass pr pt).flags = os.flags) := by
  refine ⟨⟨_, expect_eq e cout h, rfl⟩, ?_, ?_⟩
  · simp [ostream.set_boolalpha, boolalpha, Nat.testBit_or]
  · intro os pass pr pt
    rw [Expr.print_appends]

/-- C18 on a stream with `hex | boolalpha | showbase` (flag word 521) and on
a fresh stream (flag word 4098, without `boolalpha`): a passing and a failing
assertion both hand the word back, and the bools of the failing one are
written by name. -/
theorem C18_flags_restored_witness :
    (Expr.equal (Expr.value (Val.bool true)) (Expr.value (Val.bool true))).is_expected_only
        = false
      ∧ (∃ os, expect (Expr.equal (Expr.value (Val.bool true)) (Expr.value (Val.bool true)))
          ⟨"", 521⟩ = Except.ok os ∧ os.flags = 521)
      ∧ expect (Expr.equal (Expr.value (Val.bool true)) (Expr.value (Val.bool false)))
          ⟨"", 4098⟩ =
        Except.ok
          ⟨format.fail ++ "fail" ++ format.reset ++ ": " ++
              "(" ++ format.fail ++ "true" ++ format.reset ++
                format.fail ++ " == " ++ format.reset ++
                format.fail ++ "false" ++ format.reset ++ ")" ++ "\n" ++
            "      " ++ "(" ++ format.fail ++ "true" ++ format.reset ++
                format.fail ++ " == " ++ format.reset ++
                format.fail ++ "false" ++ format.reset ++
                " => " ++ format.fail ++ "false" ++ format.reset ++ ")" ++ "\n" ++
            "      " ++ "(" ++ "<bool>(" ++ format.fail ++ "true" ++ format.reset ++ ")" ++
                format.fail ++ " == " ++ format.reset ++
                "<bool>(" ++ format.fail ++ "false" ++ format.reset ++ ")" ++ ")" ++ "\n" ++
            "      " ++ "(" ++ "<bool>(" ++ format.fail ++ "true" ++ format.reset ++ ")" ++
                format.fail ++ " == " ++ format.reset ++
                "<bool>(" ++ format.fail ++ "false" ++ format.reset ++ ")" ++
                " => " ++ "<bool>(" ++ format.fail ++ "false" ++ format.reset ++ ")" ++ ")" ++
                "\n",
            4098⟩ :=
  ⟨by decide,
    (C18_flags_restored (Expr.equal (Expr.value (Val.bool true)) (Expr.value (Val.bool true)))
      ⟨"", 521⟩ (by decide)).1,
    by rfl⟩

/-! ## C19: a bare `Value` leaf -/

/-- C19: for every value `v`, `expect` applied to the bare leaf `Value(v)` is
accepted and appends exactly one line: the pass token, `"pass"`, reset,
`": "`, the leaf in the pass colour, a newline.  `all_conditions_true()` of a
`Value` leaf is true whatever the value: so for `false`, `0` and the empty
string. -/
theorem C19_bare_value (v : Val) (cout : ostream) :
    expect (Expr.value v) cout =
        Except.ok
          ⟨cout.text ++
            (format.pass ++ "pass" ++ format.reset ++ ": " ++
              format.pass ++ basic_value.value_text v (cout.flags ||| boolalpha) ++
              format.reset ++ "\n"),
            cout.flags⟩
      ∧ (Expr.value v).all_conditions_true = true
      ∧ expect (Expr.value (Val.bool false)) ⟨"", default_flags⟩ =
        Except.ok
          ⟨format.pass ++ "pass" ++ format.reset ++ ": " ++
            format.pass ++ "false" ++ format.reset ++ "\n", default_flags⟩
      ∧ expect (Expr.value (Val.int IntTy.int 0)) ⟨"", default_flags⟩ =
        Except.ok
          ⟨format.pass ++ "pass" ++ format.reset ++ ": " ++
            format.pass ++ "0" ++ format.reset ++ "\n", default_flags⟩
      ∧ expect (Expr.value (Val.string_view "")) ⟨"", default_flags⟩ =
        Except.ok
          ⟨format.pass ++ "pass" ++ format.reset ++ ": " ++
            format.pass ++ "\"\"" ++ format.reset ++ "\n", default_flags⟩ := by
  refine ⟨?_, rfl, by rfl, by rfl, by rfl⟩
  rw [expect_eq (Expr.value v) cout rfl]
  have hact : (Expr.value v).all_conditions_true = true := rfl
  rw [hact, Expr.printed_value, basic_value.printed_shape]
  simp only [format.color, if_true, if_false, Bool.false_eq_true, String.append_assoc,
    String.empty_append, String.append_empty]

/-! ## C20: unary plus and minus on typed constants -/

/-- For a signed type with maximum `M`, a value in `[-M, M]` lies in the range
of the promoted type and survives the conversions of the unary operators. -/
theorem static_cast_signed_symmetric (T : IntTy) (n : Int) (hs : T.is_signed = true)
    (h1 : -(T.numeric_limits_max : Int) ≤ n) (h2 : n ≤ (T.numeric_limits_max : Int)) :
    static_cast T (static_cast T.promote n) = n
      ∧ T.promote.numeric_limits_min ≤ n
      ∧ n ≤ (T.promote.numeric_limits_max : Int) := by
  cases T <;>
    simp [IntTy.is_signed] at hs <;>
    simp [IntTy.numeric_limits_max, IntTy.is_signed, IntTy.bits] at h1 h2 <;>
    simp [static_cast, IntTy.promote, IntTy.rank, IntTy.numeric_limits_max,
      IntTy.numeric_limits_min, IntTy.is_signed, IntTy.bits] <;>
    omega

/-- The unary operators keep the type of a constant and the symmetric range
of a signed type. -/
theorem arithmetic_constant.apply_all_symmetric (T : IntTy) (hs : T.is_signed = true)
    (ops : List unary_op) : ∀ c : arithmetic_constant, c.T = T →
      -(T.numeric_limits_max : Int) ≤ c.value_ → c.value_ ≤ (T.numeric_limits_max : Int) →
      (c.apply_all ops).T = T
        ∧ -(T.numeric_limits_max : Int) ≤ (c.apply_all ops).value_
        ∧ (c.apply_all ops).value_ ≤ (T.numeric_limits_max : Int) := by
  induction ops with
  | nil => intro c hT h1 h2; exact ⟨hT, h1, h2⟩
  | cons op ops ih =>
    intro c hT h1 h2
    subst hT
    have hstep : (c.apply op).T = c.T ∧ -(c.T.numeric_limits_max : Int) ≤ (c.apply op).value_
        ∧ (c.apply op).value_ ≤ (c.T.numeric_limits_max : Int) := by
      cases op with
      | plus =>
        have h := (static_cast_signed_symmetric c.T c.value_ hs h1 h2).1
        simp only [arithmetic_constant.apply, arithmetic_constant.operator_plus, h]
        exact ⟨trivial, h1, h2⟩
      | minus =>
        have h := (static_cast_signed_symmetric c.T (-c.value_) hs (by omega) (by omega)).1
        simp only [arithmetic_constant.apply, arithmetic_constant.operator_minus, h]
        exact ⟨trivial, by omega, by omega⟩
    exact ih (c.apply op) hstep.1 hstep.2.1 hstep.2.2

/-- C20: for every signed integer type `T` with maximum `M`, a constant made
from an accepted literal by any number of unary plus and minus keeps the type
`T` and a value in `[-M, M]`.  Hence the negation in `operator-()` stays in
the range of the promoted type, unary plus returns the same constant, unary
minus the exact negation, minus applied twice the original, and the minimum
`-M-1` of the type never occurs. -/
theorem C20_unary_operators (T : IntTy) (v : Nat) (c : arithmetic_constant)
    (ops : List unary_op) (hs : T.is_signed = true) (hl : literal T v = some c) :
    (c.apply_all ops).T = T
      ∧ -(T.numeric_limits_max : Int) ≤ (c.apply_all ops).value_
      ∧ (c.apply_all ops).value_ ≤ (T.numeric_limits_max : Int)
      ∧ T.promote.numeric_limits_min ≤ -(c.apply_all ops).value_
      ∧ -(c.apply_all ops).value_ ≤ (T.promote.numeric_limits_max : Int)
      ∧ (c.apply_all ops).operator_plus = c.apply_all ops
      ∧ (c.apply_all ops).operator_minus = ⟨T, -(c.apply_all ops).value_⟩
      ∧ (c.apply_all ops).operator_minus.operator_minus = c.apply_all ops
      ∧ T.numeric_limits_min = -(T.numeric_limits_max : Int) - 1
      ∧ (c.apply_all ops).value_ ≠ T.numeric_limits_min := by
  have hc : c = ⟨T, (v : Int)⟩ ∧ v ≤ T.numeric_limits_max := by
    unfold literal validating_cast at hl
    split at hl
    · simp at hl
    · rename_i hle
      simp only [Option.map_some', Option.some.injEq] at hl
      rw [static_cast_of_le_max T v (by omega)] at hl
      exact ⟨hl.symm, by omega⟩
  obtain ⟨hc, hle⟩ := hc
  obtain ⟨hT, h1, h2⟩ := arithmetic_constant.apply_all_symmetric T hs ops c (by rw [hc])
    (by rw [hc]; show -(T.numeric_limits_max : Int) ≤ (v : Int); omega)
    (by rw [hc]; show (v : Int) ≤ (T.numeric_limits_max : Int); omega)
  have hneg := static_cast_signed_symmetric T (-(c.apply_all ops).value_) hs (by omega) (by omega)
  have hpos := static_cast_signed_symmetric T (c.apply_all ops).value_ hs h1 h2
  have hmin : T.numeric_limits_min = -(T.numeric_limits_max : Int) - 1 := by
    cases T <;> simp [IntTy.is_signed] at hs <;>
      simp [IntTy.numeric_limits_min, IntTy.numeric_limits_max, IntTy.is_signed, IntTy.bits]
  have hplus : (c.apply_all ops).operator_plus = c.apply_all ops := by
    unfold arithmetic_constant.operator_plus
    rw [hT, hpos.1, ← hT]
  have hminus : (c.apply_all ops).operator_minus = ⟨T, -(c.apply_all ops).value_⟩ := by
    unfold arithmetic_constant.operator_minus
    rw [hT, hneg.1]
  refine ⟨hT, h1, h2, hneg.2.1, hneg.2.2, hplus, hminus, ?_, hmin, ?_⟩
  · rw [hminus]
    unfold arithmetic_constant.operator_minus
    simp only [neg_neg]
    rw [hpos.1, ← hT]
  · rw [hmin]
    omega

/-- C20 at `127_i8` under minus, plus, minus, and at `-3_i` of `main`. -/
theorem C20_unary_operators_witness :
    IntTy.schar.is_signed = true
      ∧ literal_i8 127 = some ⟨IntTy.schar, 127⟩
      ∧ (-(127 : Int) ≤ (arithmetic_constant.apply_all ⟨IntTy.schar, 127⟩
          [unary_op.minus, unary_op.plus, unary_op.minus]).value_)
      ∧ arithmetic_constant.apply_all ⟨IntTy.schar, 127⟩
          [unary_op.minus, unary_op.plus, unary_op.minus] = ⟨IntTy.schar, 127⟩
      ∧ arithmetic_constant.apply_all ⟨IntTy.schar, 127⟩ [unary_op.minus] = ⟨IntTy.schar, -127⟩
      ∧ arithmetic_constant.operator_minus ⟨IntTy.int, 3⟩ = ⟨IntTy.int, -3⟩ :=
  ⟨by decide, by decide,
    (C20_unary_operators IntTy.schar 127 ⟨IntTy.schar, 127⟩
      [unary_op.minus, unary_op.plus, unary_op.minus] (by decide) (by decide)).2.1,
    by decide, by decide, by decide⟩

end ut
